import Mathlib

/-!
# git-assure — verification of the Repository Risk Analysis Engine

Shallow embedding of `src/analyzer.js` (the engine behind
`analyzeGitHubRepository`) and proofs about the claims of the
natural-language specification.

Conventions of the embedding:
* JavaScript numbers that only ever hold integers are modelled as `Int`
  (timestamps in milliseconds, counts that may be compared against
  thresholds) or `Nat` (list lengths, scores).
* `null`-able JavaScript values are modelled as `Option`; the JS
  comparison `null > n` is `false` for every `n ≥ 0` (null coerces to 0),
  and every comparison in the source uses a positive bound, so
  `optGt none n = false` is faithful.
* Network behaviour is an explicit oracle; `await fetch(...)` either
  yields a settled HTTP response or rejects (`netError`), and
  `response.json()` either yields the decoded body or throws.
* The engine's `try`/`catch` blocks are modelled with an exception monad
  over a request log; a rejected promise or a JSON parse error raises an
  exception that is either swallowed by the enclosing inner `catch`
  (degrading one fact) or reaches the top-level handler.
-/

namespace GitAssure

/-! ## Small JavaScript-semantics helpers -/

/-- JS `x > n` where `x` is a number-or-`null` field: `null` coerces to
`0`, and every bound used by the analyzer (`0`, `30`, `72`, `90`, `168`,
`365`) is nonnegative, so the `null` case is `false`. -/
def optGt (x : Option Int) (n : Int) : Bool :=
  match x with
  | none => false
  | some v => v > n

/-- JS `x < n` under the guard `x !== null` is only applied to present
values; rendering of the present value for messages. -/
def optShow (x : Option Int) : String :=
  match x with
  | none => "null"
  | some v => toString v

/-- Substring test, as JS `String.prototype.includes`. -/
def strContains (s pat : String) : Bool :=
  go s.data
where
  go : List Char → Bool
  | [] => pat.data.isPrefixOf []
  | c :: rest => pat.data.isPrefixOf (c :: rest) || go rest

/-- JS `String.prototype.startsWith`. -/
def jsStartsWith (s pat : String) : Bool := pat.data.isPrefixOf s.data

/-- JS `String.prototype.endsWith`. -/
def jsEndsWith (s pat : String) : Bool := pat.data.reverse.isPrefixOf s.data.reverse

/-- ASCII lower-casing, as the source only compares against ASCII
literals. -/
def jsToLowerStr (s : String) : String := String.mk (s.data.map Char.toLower)

def jsToUpperStr (s : String) : String := String.mk (s.data.map Char.toUpper)

def isJsSpace (c : Char) : Bool := c = ' ' || c = '\t' || c = '\n' || c = '\r'

/-- JS `String.prototype.trim` (ASCII whitespace). -/
def jsTrim (s : String) : String :=
  String.mk ((s.data.dropWhile isJsSpace).reverse.dropWhile isJsSpace).reverse

/-- Decimal digits to a number. -/
def digitsToNat (ds : List Char) : Nat :=
  ds.foldl (fun acc c => acc * 10 + (c.toNat - 48)) 0

/-- Left-to-right non-overlapping split on a pattern (JS
`String.prototype.split` with a non-empty string separator; an empty
separator degrades to the whole string).  Fuel-driven; the fuel is the
input length, which is never exhausted. -/
def splitOnCharsAux (pat : List Char) : Nat → List Char → List Char → List (List Char)
  | _, [], acc => [acc.reverse]
  | 0, l, acc => [acc.reverse ++ l]
  | fuel + 1, c :: rest, acc =>
    if pat.isPrefixOf (c :: rest) && !pat.isEmpty then
      acc.reverse :: splitOnCharsAux pat fuel ((c :: rest).drop pat.length) []
    else
      splitOnCharsAux pat fuel rest (c :: acc)

def jsSplitOn (s pat : String) : List String :=
  (splitOnCharsAux pat.data s.data.length s.data []).map String.mk

/-! ## Risk factors and the scoring facts

`Facts` collects exactly the local variables of `analyzeGitHubRepository`
that the scoring block (source lines 766–960) reads. -/

structure RiskFactor where
  weight : Nat
  message : String
deriving Repr, DecidableEq

structure Facts where
  numberOfContributors : Nat
  averageContributorAgeInDays : Option Int
  ageInDays : Int
  daysSinceLastCommit : Option Int
  license : String
  licenseRisk : String
  hasDependencyFile : Bool
  hasTestDirectory : Bool
  hasCiSetup : Bool
  hasReadme : Bool
  hasDocDirectory : Bool
  hasReleases : Bool
  daysSinceLastRelease : Option Int
  usesSemanticVersioning : Bool
  starCount : Int
  responseTimeMetrics : Option (Int × Nat)
  hasCodeQualityTools : Bool
  hasContributingGuidelines : Bool
  longLivingPullsCount : Nat
  longLivingIssuesCount : Nat
  hasSecurityPolicy : Bool
  codeComplexity : String
  depHighSeverityCount : Option Int
  depMediumSeverityCount : Option Int
  depLowSeverityCount : Option Int
  depHasDependencies : Bool
  depAlertsEnabled : Bool
  depMajorOutdatedCount : Nat
  depMinorOutdatedCount : Nat
deriving Repr, DecidableEq

/-! ## The scoring rules

Each `rule...` definition transcribes one `if`/`else if` chain of the
scoring block; a chain pushes at most one risk factor and adds exactly
its weight, so a chain is one function `Facts → Option RiskFactor`. -/

/-- Source lines 771–777: contributor count. -/
def ruleContributors (f : Facts) : Option RiskFactor :=
  if f.numberOfContributors < 2 then some ⟨3, "Low number of contributors."⟩
  else if f.numberOfContributors < 5 then some ⟨1, "Relatively low number of contributors."⟩
  else none

/-- Source lines 780–788: contributor account maturity. -/
def ruleContributorAge (f : Facts) : Option RiskFactor :=
  match f.averageContributorAgeInDays with
  | none => none
  | some d =>
    if d < 180 then some ⟨2, "Contributors have relatively new GitHub accounts (< 6 months)."⟩
    else if d < 365 then some ⟨1, "Contributors have moderately new GitHub accounts (< 1 year)."⟩
    else none

/-- Source lines 790–793: project age. -/
def ruleProjectAge (f : Facts) : Option RiskFactor :=
  if f.ageInDays < 365 then some ⟨1, "Relatively young project."⟩ else none

/-- Source lines 795–801: commit recency (`null` counts as stale). -/
def ruleLastCommit (f : Facts) : Option RiskFactor :=
  if f.daysSinceLastCommit = none || optGt f.daysSinceLastCommit 90 then
    some ⟨2, "Infrequent recent contributions."⟩
  else if optGt f.daysSinceLastCommit 30 then
    some ⟨1, "Potentially infrequent recent contributions."⟩
  else none

/-- Source lines 804–813: license risk. -/
def ruleLicense (f : Facts) : Option RiskFactor :=
  if f.license = "Unknown" then some ⟨3, "No license found."⟩
  else if f.licenseRisk = "High" then some ⟨2, "Restrictive license may limit usage."⟩
  else if f.licenseRisk = "Medium" then some ⟨1, "License has some usage restrictions."⟩
  else none

/-- Source lines 816–819: dependency manifest presence. -/
def ruleDependencyFile (f : Facts) : Option RiskFactor :=
  if !f.hasDependencyFile then some ⟨1, "No dependency management file found."⟩ else none

/-- Source lines 822–825: test directory presence. -/
def ruleTests (f : Facts) : Option RiskFactor :=
  if !f.hasTestDirectory then some ⟨2, "No test directory found."⟩ else none

/-- Source lines 828–831: CI/CD configuration presence. -/
def ruleCi (f : Facts) : Option RiskFactor :=
  if !f.hasCiSetup then some ⟨1, "No CI/CD configuration found."⟩ else none

/-- Source lines 834–837: README presence. -/
def ruleReadme (f : Facts) : Option RiskFactor :=
  if !f.hasReadme then some ⟨2, "No README file found."⟩ else none

/-- Source lines 839–842: documentation beyond the README. -/
def ruleDocs (f : Facts) : Option RiskFactor :=
  if !f.hasDocDirectory && !f.hasReadme then some ⟨1, "Limited documentation."⟩ else none

/-- Source lines 845–854: release practices. -/
def ruleReleases (f : Facts) : Option RiskFactor :=
  if !f.hasReleases then some ⟨1, "No formal releases found."⟩
  else if optGt f.daysSinceLastRelease 365 then some ⟨2, "No releases in over a year."⟩
  else if !f.usesSemanticVersioning then some ⟨1, "Not using semantic versioning."⟩
  else none

/-- Source lines 857–860: community interest. -/
def ruleStars (f : Facts) : Option RiskFactor :=
  if f.starCount < 10 then some ⟨1, "Low community interest (few stars)."⟩ else none

/-- Source lines 863–871: issue response time. -/
def ruleResponseTime (f : Facts) : Option RiskFactor :=
  match f.responseTimeMetrics with
  | none => none
  | some (avg, _) =>
    if avg > 168 then some ⟨2, "Slow response time to issues (>1 week)."⟩
    else if avg > 72 then some ⟨1, "Moderate response time to issues (>3 days)."⟩
    else none

/-- Source lines 874–877: lint/format tooling. -/
def ruleCodeQuality (f : Facts) : Option RiskFactor :=
  if !f.hasCodeQualityTools then some ⟨1, "No code quality tools found."⟩ else none

/-- Source lines 880–883: contributing guidelines. -/
def ruleContributing (f : Facts) : Option RiskFactor :=
  if !f.hasContributingGuidelines then some ⟨1, "No contributing guidelines found."⟩ else none

/-- Source lines 885–891: long-lived open pull requests. -/
def rulePulls (f : Facts) : Option RiskFactor :=
  if f.longLivingPullsCount > 5 then
    some ⟨2, "Many long-lived open pull requests (" ++ toString f.longLivingPullsCount ++ ")."⟩
  else if f.longLivingPullsCount > 0 then
    some ⟨1, "Some long-lived open pull requests (" ++ toString f.longLivingPullsCount ++ ")."⟩
  else none

/-- Source lines 893–902: long-lived open issues. -/
def ruleIssues (f : Facts) : Option RiskFactor :=
  if f.longLivingIssuesCount > 10 then
    some ⟨3, "Many long-lived open issues (" ++ toString f.longLivingIssuesCount ++ ")."⟩
  else if f.longLivingIssuesCount > 5 then
    some ⟨2, "Several long-lived open issues (" ++ toString f.longLivingIssuesCount ++ ")."⟩
  else if f.longLivingIssuesCount > 0 then
    some ⟨1, "Some long-lived open issues (" ++ toString f.longLivingIssuesCount ++ ")."⟩
  else none

/-- Source lines 905–908: security policy. -/
def ruleSecurityPolicy (f : Facts) : Option RiskFactor :=
  if !f.hasSecurityPolicy then some ⟨2, "No explicit security policy found."⟩ else none

/-- Source lines 910–913: complexity heuristic. -/
def ruleComplexity (f : Facts) : Option RiskFactor :=
  if jsStartsWith f.codeComplexity "Likely high" then
    some ⟨1, "Potentially high code complexity."⟩
  else none

/-- Source lines 916–921: high severity vulnerabilities (flat +3 when the
count is a number `> 0`; `null > 0` is false). -/
def ruleVulnHigh (f : Facts) : Option RiskFactor :=
  if optGt f.depHighSeverityCount 0 then
    some ⟨3, optShow f.depHighSeverityCount ++ " high severity vulnerabilities found."⟩
  else none

/-- Source lines 923–928: medium severity vulnerabilities (flat +2). -/
def ruleVulnMedium (f : Facts) : Option RiskFactor :=
  if optGt f.depMediumSeverityCount 0 then
    some ⟨2, optShow f.depMediumSeverityCount ++ " medium severity vulnerabilities found."⟩
  else none

/-- Source lines 930–935: low severity vulnerabilities (flat +1). -/
def ruleVulnLow (f : Facts) : Option RiskFactor :=
  if optGt f.depLowSeverityCount 0 then
    some ⟨1, optShow f.depLowSeverityCount ++ " low severity vulnerabilities found."⟩
  else none

/-- Source lines 937–940: dependencies without vulnerability alerting. -/
def ruleAlerts (f : Facts) : Option RiskFactor :=
  if f.depHasDependencies && !f.depAlertsEnabled then
    some ⟨1, "Repository has dependencies but vulnerability alerts are not enabled."⟩
  else none

/-- Source lines 943–953: major-outdated dependencies. -/
def ruleMajorOutdated (f : Facts) : Option RiskFactor :=
  if f.depMajorOutdatedCount > 5 then
    some ⟨3, "Many dependencies are severely outdated (" ++ toString f.depMajorOutdatedCount
      ++ " major versions behind)."⟩
  else if f.depMajorOutdatedCount > 0 then
    some ⟨2, "Some dependencies are severely outdated (" ++ toString f.depMajorOutdatedCount
      ++ " major versions behind)."⟩
  else none

/-- Source lines 955–960: minor-outdated dependencies. -/
def ruleMinorOutdated (f : Facts) : Option RiskFactor :=
  if f.depMinorOutdatedCount > 10 then
    some ⟨1, "Many dependencies need minor version updates (" ++ toString f.depMinorOutdatedCount
      ++ " minor versions behind)."⟩
  else none

/-- The scoring chains in source order (lines 770–960). -/
def ruleList : List (Facts → Option RiskFactor) :=
  [ruleContributors, ruleContributorAge, ruleProjectAge, ruleLastCommit, ruleLicense,
   ruleDependencyFile, ruleTests, ruleCi, ruleReadme, ruleDocs, ruleReleases, ruleStars,
   ruleResponseTime, ruleCodeQuality, ruleContributing, rulePulls, ruleIssues,
   ruleSecurityPolicy, ruleComplexity, ruleVulnHigh, ruleVulnMedium, ruleVulnLow,
   ruleAlerts, ruleMajorOutdated, ruleMinorOutdated]

/-- The factor fired (or not) by each chain, in source order. -/
def firedFactors (f : Facts) : List (Option RiskFactor) :=
  ruleList.map (fun r => r f)

/-- One accumulation step of the scoring block:
`riskScore += weight; riskFactors.push(message)` when the chain fired. -/
def stepAdd (acc : Nat × List RiskFactor) (o : Option RiskFactor) : Nat × List RiskFactor :=
  match o with
  | some rf => (acc.1 + rf.weight, acc.2 ++ [rf])
  | none => acc

/-- The scoring block: running `riskScore`/`riskFactors` accumulation over
the chains in source order. -/
def scoreState (f : Facts) : Nat × List RiskFactor :=
  (firedFactors f).foldl stepAdd (0, [])

def riskScoreOf (f : Facts) : Nat := (scoreState f).1

def riskFactorsOf (f : Facts) : List RiskFactor := (scoreState f).2

/-- Source lines 963–970: the three-tier rating from the total score. -/
def riskRatingOf (s : Nat) : String :=
  if s > 15 then "High" else if s > 10 then "Medium" else "Low"

/-! ## Version handling and outdated-dependency classification -/

/-- Source lines 232 / 425–426: `version.replace(/[^0-9.]/g, '')` — keep
only digits and dots. -/
def cleanVersionString (s : String) : String :=
  String.mk (s.data.filter (fun c => c.isDigit || c = '.'))

structure SemverTriple where
  major : Nat
  minor : Nat
  patch : Nat
deriving Repr, DecidableEq

/-- Model of `semver.coerce` on a cleaned (digits-and-dots) string: first match of
`(\d+)(?:\.(\d+))?(?:\.(\d+))?`; missing components default to `0`;
`none` when the string has no digits at all. -/
def coerceVersion (s : String) : Option SemverTriple :=
  let cs := s.data.dropWhile (fun c => !c.isDigit)
  match cs with
  | [] => none
  | _ =>
    let majorDigits := cs.takeWhile Char.isDigit
    let rest1 := cs.drop majorDigits.length
    let (minorDigits, rest2) :=
      match rest1 with
      | '.' :: r =>
        let d := r.takeWhile Char.isDigit
        if d = [] then ([], []) else (d, r.drop d.length)
      | _ => ([], [])
    let patchDigits :=
      match rest2 with
      | '.' :: r =>
        let d := r.takeWhile Char.isDigit
        if d = [] then [] else d
      | _ => []
    some ⟨digitsToNat majorDigits,
          if minorDigits = [] then 0 else digitsToNat minorDigits,
          if patchDigits = [] then 0 else digitsToNat patchDigits⟩

structure OutdatedRecord where
  name : String
  currentVersion : String
  latestVersion : String
  isMajorBehind : Bool
  isMinorBehind : Bool
  isPatchBehind : Bool
  behindMajor : Int
  behindMinor : Int
  behindPatch : Int
  updateUrgency : String
deriving Repr, DecidableEq

/-- Source lines 423–468: given the registry's `latestVersion` and the
declared `dep.version`, build the outdated record (or `null`).  The
outer guard is JS truthiness of both strings (empty strings are falsy);
the pair is skipped unless both sides coerce. -/
def mkOutdatedRecord (name curRaw latestRaw : String) : Option OutdatedRecord :=
  if latestRaw ≠ "" && curRaw ≠ "" then
    let cleanCurrentVersion := cleanVersionString curRaw
    let cleanLatestVersion := cleanVersionString latestRaw
    match coerceVersion cleanCurrentVersion, coerceVersion cleanLatestVersion with
    | some currentSemver, some latestSemver =>
      let isMajorBehind := latestSemver.major > currentSemver.major
      let isMinorBehind := latestSemver.major = currentSemver.major
        && latestSemver.minor > currentSemver.minor
      let isPatchBehind := latestSemver.major = currentSemver.major
        && latestSemver.minor = currentSemver.minor
        && latestSemver.patch > currentSemver.patch
      if isMajorBehind || isMinorBehind || isPatchBehind then
        some { name := name
               currentVersion := cleanCurrentVersion
               latestVersion := cleanLatestVersion
               isMajorBehind := isMajorBehind
               isMinorBehind := isMinorBehind
               isPatchBehind := isPatchBehind
               behindMajor := (latestSemver.major : Int) - currentSemver.major
               behindMinor := if isMinorBehind then
                   (latestSemver.minor : Int) - currentSemver.minor else 0
               behindPatch := if isPatchBehind then
                   (latestSemver.patch : Int) - currentSemver.patch else 0
               updateUrgency := if isMajorBehind then "high"
                 else if isMinorBehind then "medium" else "low" }
      else none
    | _, _ => none
  else none

/-- Source lines 491–493: `outdatedDependencies.filter(dep => dep.isMajorBehind).length`. -/
def majorOutdatedCountOf (l : List OutdatedRecord) : Nat :=
  (l.filter (fun d => d.isMajorBehind)).length

/-- Source lines 495–497: `filter(dep => !dep.isMajorBehind && dep.isMinorBehind).length`. -/
def minorOutdatedCountOf (l : List OutdatedRecord) : Nat :=
  (l.filter (fun d => !d.isMajorBehind && d.isMinorBehind)).length

/-! ## Manifest parsing -/

structure DepEntry where
  name : String
  version : String
deriving Repr, DecidableEq

/-- A decoded `package.json`: the `dependencies` / `devDependencies`
objects as association lists in insertion order (absent fields are `[]`,
as JS reads them through `|| {}`). -/
structure PackageJsonDoc where
  dependencies : List (String × String)
  devDependencies : List (String × String)
deriving Repr, DecidableEq

/-- JS object spread `{...a, ...b}` followed by `Object.entries`: keys of
`a` in order (values overridden by `b` where shared), then keys of `b`
not present in `a`.  Keys within each object are assumed distinct (they
come from parsed JSON objects). -/
def jsObjectMerge (a b : List (String × String)) : List (String × String) :=
  (a.map (fun p => (p.1, ((b.find? (fun q => q.1 = p.1)).map Prod.snd).getD p.2)))
    ++ b.filter (fun q => !(a.any (fun p => p.1 = q.1)))

/-- Source lines 221–234: the parsed dependency list from `package.json` —
merged entries, versions cleaned, capped at the first 20. -/
def parsedDepsOfPackageJson (doc : PackageJsonDoc) : List DepEntry :=
  ((jsObjectMerge doc.dependencies doc.devDependencies).map
    (fun p => ⟨p.1, cleanVersionString p.2⟩)).take 20

/-- Source line 226: `Object.keys(allDeps).length`. -/
def depCountOfPackageJson (doc : PackageJsonDoc) : Nat :=
  (jsObjectMerge doc.dependencies doc.devDependencies).length

def isReqNameChar (c : Char) : Bool := c.isAlphanum || c = '_' || c = '.' || c = '-'

def isReqOpChar (c : Char) : Bool := c = '=' || c = '~' || c = '!' || c = '<' || c = '>'

def isReqVersionChar (c : Char) : Bool := c.isAlphanum || c = '.' || c = '-'

/-- Source line 253: `line.match(/^([a-zA-Z0-9_.-]+)[=~!<>]{1,2}([0-9a-zA-Z.-]+)/)`,
with the regex's greedy-then-backtrack behaviour on the one-or-two
operator characters. -/
def parseRequirementLine (line : String) : Option DepEntry :=
  let cs := line.data
  let nameCs := cs.takeWhile isReqNameChar
  if nameCs = [] then none
  else
    match cs.drop nameCs.length with
    | o1 :: r1 =>
      if isReqOpChar o1 then
        let afterTwo : Option (List Char) :=
          match r1 with
          | o2 :: r2 => if isReqOpChar o2 then some r2 else none
          | [] => none
        let verOf (rest : List Char) : Option (List Char) :=
          let v := rest.takeWhile isReqVersionChar
          if v = [] then none else some v
        match afterTwo with
        | some r2 =>
          match verOf r2 with
          | some v => some ⟨String.mk nameCs, String.mk v⟩
          | none =>
            match verOf r1 with
            | some v => some ⟨String.mk nameCs, String.mk v⟩
            | none => none
        | none =>
          match verOf r1 with
          | some v => some ⟨String.mk nameCs, String.mk v⟩
          | none => none
      else none
    | [] => none

/-- Source lines 250–256: split on newlines, keep the lines matching the
requirement pattern. -/
def parseRequirements (content : String) : List DepEntry :=
  (jsSplitOn content "\n").filterMap parseRequirementLine

/-! ## Vulnerability records (GH advisory alerts and OSV) -/

structure VulnPackage where
  name : String
  severity : String
  fixedIn : String
  id : Option String
  details : Option String
deriving Repr, DecidableEq

/-- One element of `alert.security_advisory.vulnerabilities`. -/
structure AdvisoryVuln where
  packageName : Option String
  severity : Option String
  patchedVersions : Option String
deriving Repr, DecidableEq

/-- One Dependabot alert; an absent `security_advisory.vulnerabilities`
is the empty list. -/
structure Alert where
  secVulnSeverity : Option String
  advisoryVulns : List AdvisoryVuln
deriving Repr, DecidableEq

/-- Source lines 169–184: count alerts by `security_vulnerability.severity`
(lower-cased, only the keys `high`/`medium`/`low`). -/
def countSeverities (alerts : List Alert) : Nat × Nat × Nat :=
  alerts.foldl (fun acc alert =>
    match alert.secVulnSeverity with
    | none => acc
    | some s =>
      let sev := jsToLowerStr s
      if sev = "high" then (acc.1 + 1, acc.2.1, acc.2.2)
      else if sev = "medium" then (acc.1, acc.2.1 + 1, acc.2.2)
      else if sev = "low" then (acc.1, acc.2.1, acc.2.2 + 1)
      else acc) (0, 0, 0)

/-- Source lines 186–197: vulnerable-package records from the advisory
vulnerabilities (skipping entries without a package name). -/
def collectVulnPackages (alerts : List Alert) : List VulnPackage :=
  alerts.flatMap (fun alert =>
    alert.advisoryVulns.filterMap (fun v =>
      match v.packageName with
      | none => none
      | some n => some { name := n
                         severity := v.severity.getD "unknown"
                         fixedIn := v.patchedVersions.getD "unknown"
                         id := none
                         details := none }))

structure SeverityEntry where
  stype : String
deriving Repr, DecidableEq

/-- The `vulnerability.database_specific` object; `cvss` here stands for the
`cvss.score` number when the `cvss` object is present. -/
structure DbSpecific where
  cvss : Option Rat
  severity : Option String
deriving Repr, DecidableEq

structure OsvEvent where
  fixed : Option String
deriving Repr, DecidableEq

structure OsvRange where
  rtype : String
  events : List OsvEvent
deriving Repr, DecidableEq

structure OsvAffected where
  ranges : List OsvRange
deriving Repr, DecidableEq

structure OsvVuln where
  id : String
  summary : Option String
  severity : List SeverityEntry
  databaseSpecific : Option DbSpecific
  affected : List OsvAffected
deriving Repr, DecidableEq

/-- Source lines 1183–1217: `determineSeverity`. -/
def determineSeverity (vulnerability : OsvVuln) : String :=
  let byLabel : Option String :=
    if vulnerability.severity.length > 0 then
      let severities := vulnerability.severity.map (fun s => jsToUpperStr s.stype)
      if severities.contains "CRITICAL" then some "CRITICAL"
      else if severities.contains "HIGH" then some "HIGH"
      else if severities.contains "MEDIUM" then some "MEDIUM"
      else if severities.contains "LOW" then some "LOW"
      else none
    else none
  match byLabel with
  | some s => s
  | none =>
    match vulnerability.databaseSpecific with
    | some db =>
      match db.cvss with
      | some cvssScore =>
        if cvssScore ≥ 9 then "CRITICAL"
        else if cvssScore ≥ 7 then "HIGH"
        else if cvssScore ≥ 4 then "MEDIUM"
        else "LOW"
      | none =>
        match db.severity with
        | some s =>
          let sev := jsToUpperStr s
          if sev = "CRITICAL" || sev = "HIGH" || sev = "MEDIUM" || sev = "LOW" then sev
          else "MEDIUM"
        | none => "MEDIUM"
    | none => "MEDIUM"

/-- Source lines 1220–1240: `extractFixedVersions`. -/
def extractFixedVersions (vulnerability : OsvVuln) : String :=
  if vulnerability.affected.length = 0 then "unknown"
  else
    let fixedVersions := vulnerability.affected.flatMap (fun affected =>
      affected.ranges.flatMap (fun range =>
        if range.rtype = "SEMVER" then
          range.events.filterMap (fun e => e.fixed)
        else []))
    if fixedVersions.length > 0 then String.intercalate ", " fixedVersions else "unknown"

/-- An entry of the accumulated `osvVulnerabilities` list (source lines
315–322). -/
structure OsvRecord where
  package : String
  version : String
  id : String
  details : String
  severity : String
  fixedIn : String
deriving Repr, DecidableEq

def mkOsvRecord (dep : DepEntry) (vuln : OsvVuln) : OsvRecord :=
  { package := dep.name
    version := dep.version
    id := vuln.id
    details := vuln.summary.getD "No summary provided"
    severity := determineSeverity vuln
    fixedIn := extractFixedVersions vuln }

/-! ## The dependency-analysis aggregate -/

structure DepAnalysis where
  hasDependencies : Bool
  dependenciesCount : Nat
  parsedDependencies : List DepEntry
  outdatedDependencies : List OutdatedRecord
  majorOutdatedCount : Nat
  minorOutdatedCount : Nat
  vulnerablePackages : List VulnPackage
  alertsEnabled : Bool
  highSeverityCount : Option Int
  mediumSeverityCount : Option Int
  lowSeverityCount : Option Int
  vulnerabilitySource : Option String
deriving Repr, DecidableEq

/-- Source lines 128–141: the initial `dependencyAnalysis` object. -/
def initDepAnalysis (hasDependencyFile : Bool) : DepAnalysis :=
  { hasDependencies := hasDependencyFile
    dependenciesCount := 0
    parsedDependencies := []
    outdatedDependencies := []
    majorOutdatedCount := 0
    minorOutdatedCount := 0
    vulnerablePackages := []
    alertsEnabled := false
    highSeverityCount := none
    mediumSeverityCount := none
    lowSeverityCount := none
    vulnerabilitySource := none }

/-! ## The network model

`analyzeGitHubRepository` is `async`; every `await fetch(...)` either
settles into an HTTP response or rejects, and `response.json()` either
yields the decoded body or throws.  The environment is an explicit
`Oracle` assigning an outcome to every request the engine can make,
with the bodies already shaped as the engine reads them. -/

/-- Outcome of `response.json()`: the decoded body or a parse error. -/
inductive JsonBody (α : Type) where
  | parseFail
  | val (a : α)
deriving Repr, DecidableEq

/-- A settled HTTP response. -/
structure HRes (α : Type) where
  status : Nat
  statusText : String
  body : JsonBody α
deriving Repr, DecidableEq

/-- node-fetch `response.ok`: status in the 2xx range. -/
def HRes.ok (r : HRes α) : Bool := 200 ≤ r.status && r.status < 300

/-- Outcome of `await fetch(...)`: a settled response or a rejected
promise (network error). -/
inductive FetchOutcome (α : Type) where
  | netError (msg : String)
  | res (r : HRes α)
deriving Repr, DecidableEq

/-- The requests the analyzer can issue (used for the request log). -/
inductive Request where
  | repoInfo
  | contributors
  | userDetail (url : String)
  | contents (path : String)
  | vulnAlerts
  | dependabotAlerts
  | osvQuery (ecosystem name version : String)
  | npmLatest (name : String)
  | pypiLatest (name : String)
  | releases
  | commits
  | pulls
  | issues
  | closedIssues
  | comments (url : String)
deriving Repr, DecidableEq

/-- Body of the primary `GET /repos/{owner}/{repo}` response, shaped as
the engine reads it (timestamps in epoch milliseconds; `license` is the
`license.name` string when `license && license.name` is truthy). -/
structure RepoInfo where
  createdAt : Int
  updatedAt : Int
  stargazersCount : Int
  forksCount : Int
  subscribersCount : Int
  openIssuesCount : Int
  size : Int
  license : Option String
deriving Repr, DecidableEq

structure Contributor where
  login : String
  url : String
deriving Repr, DecidableEq

structure UserData where
  createdAt : Int
deriving Repr, DecidableEq

/-- Result of decoding a `/contents/...` body's base64 `content` field:
`malformed` models a `JSON.parse` failure on the decoded text. -/
inductive DecodedContent (α : Type) where
  | malformed
  | parsed (a : α)
deriving Repr, DecidableEq

/-- A `/contents/...` JSON body: optional `content`, `size`, `html_url`. -/
structure ContentsDoc (α : Type) where
  content : Option (DecodedContent α)
  size : Int
  htmlUrl : String
deriving Repr, DecidableEq

structure Release where
  publishedAt : Int
  tagName : String
deriving Repr, DecidableEq

structure Commit where
  authorDate : Int
deriving Repr, DecidableEq

structure PullInfo where
  createdAt : Int
deriving Repr, DecidableEq

structure IssueInfo where
  number : Nat
  createdAt : Int
  isPullRequest : Bool
  commentsUrl : String
deriving Repr, DecidableEq

structure CommentInfo where
  createdAt : Int
deriving Repr, DecidableEq

structure OsvResp where
  vulns : List OsvVuln
deriving Repr, DecidableEq

structure NpmResp where
  version : String
deriving Repr, DecidableEq

structure PypiResp where
  infoVersion : String
deriving Repr, DecidableEq

/-- The network environment of one analysis run. -/
structure Oracle where
  repoInfo : FetchOutcome RepoInfo
  contributors : FetchOutcome (List Contributor)
  userDetail : String → FetchOutcome UserData
  packageJson : FetchOutcome (ContentsDoc PackageJsonDoc)
  packageLock : FetchOutcome Unit
  requirements : FetchOutcome (ContentsDoc String)
  gemfile : FetchOutcome Unit
  gradle : FetchOutcome Unit
  maven : FetchOutcome Unit
  vulnAlerts : FetchOutcome Unit
  dependabotAlerts : FetchOutcome (List Alert)
  osvQuery : String → String → FetchOutcome OsvResp
  npmLatest : String → FetchOutcome NpmResp
  pypiLatest : String → FetchOutcome PypiResp
  contentsProbe : String → FetchOutcome Unit
  readme : FetchOutcome (ContentsDoc String)
  releases : FetchOutcome (List Release)
  commits : FetchOutcome (List Commit)
  contributing : FetchOutcome Unit
  securityMd : FetchOutcome Unit
  securityTxt : FetchOutcome Unit
  pulls : FetchOutcome (List PullInfo)
  issues : FetchOutcome (List IssueInfo)
  closedIssues : FetchOutcome (List IssueInfo)
  comments : String → FetchOutcome (List CommentInfo)

/-! ## The analysis monad: exceptions over a request log -/

structure AnalyzerState where
  log : List Request
deriving Repr, DecidableEq

/-- The engine's effect: sequential execution with JS exceptions,
instrumented with the list of requests issued so far. -/
def M (α : Type) : Type := AnalyzerState → Except String α × AnalyzerState

def M.pure (a : α) : M α := fun s => (.ok a, s)

def M.bind (m : M α) (f : α → M β) : M β := fun s =>
  match m s with
  | (.ok a, s1) => f a s1
  | (.error e, s1) => (.error e, s1)

instance : Monad M where
  pure := M.pure
  bind := M.bind

/-- A thrown JS exception. -/
def M.throw (msg : String) : M α := fun s => (.error msg, s)

/-- JS `try { body } catch (e) { console.warn(...) }` with the value the
surrounding code keeps using when the block failed. -/
def M.tryCatch (body : M α) (fallback : α) : M α := fun s =>
  match body s with
  | (.ok a, s1) => (.ok a, s1)
  | (.error _, s1) => (.ok fallback, s1)

/-- Model of `await fetch(...)`: logs the request; a rejected promise is a thrown
exception, a settled response (any status) is returned. -/
def doFetch (req : Request) (outcome : FetchOutcome α) : M (HRes α) := fun s =>
  match outcome with
  | .netError msg => (.error msg, ⟨s.log ++ [req]⟩)
  | .res r => (.ok r, ⟨s.log ++ [req]⟩)

/-- Model of `await response.json()`: throws on a parse failure. -/
def jsonOf (r : HRes α) : M α :=
  match r.body with
  | .parseFail => M.throw "Unexpected token in JSON"
  | .val a => M.pure a

/-- Sequential traversal collecting the results in order (the settled
values of a `Promise.all` over `batch.map(...)`). -/
def mapML (f : α → M β) : List α → M (List β)
  | [] => M.pure []
  | a :: as => M.bind (f a) (fun b => M.bind (mapML f as) (fun bs => M.pure (b :: bs)))

/-- Source lines 505–633 (pattern): a category flag is
`responses.some(response => response.ok)` over the settled candidate
responses. -/
def probeBatch (responses : List (HRes Unit)) : Bool :=
  responses.any (fun r => r.ok)

/-- Batching used by the OSV and registry lookups (source lines 283–288 /
390–395): slices of `batchSize` in order. -/
def chunkListAux (fuel : Nat) (n : Nat) (l : List α) : List (List α) :=
  match fuel, l with
  | 0, _ => []
  | _, [] => []
  | fuel + 1, l => l.take n :: chunkListAux fuel n (l.drop n)

def chunkList (n : Nat) (l : List α) : List (List α) :=
  chunkListAux l.length n l

/-- Source lines 343–368: after the OSV queries, update the counts and
vulnerable packages only under
`osvVulnerabilities.length > 0 && highSeverityCount === 0 &&
mediumSeverityCount === 0 && lowSeverityCount === 0` — strict equality,
so a `null` count (advisory path never ran) fails the test. -/
def applyOsvMerge (da : DepAnalysis) (osvVulnerabilities : List OsvRecord) : DepAnalysis :=
  let highSeverityVulns := (osvVulnerabilities.filter (fun v => v.severity = "HIGH")).length
  let mediumSeverityVulns := (osvVulnerabilities.filter (fun v => v.severity = "MEDIUM")).length
  let lowSeverityVulns := (osvVulnerabilities.filter (fun v => v.severity = "LOW")).length
  if osvVulnerabilities.length > 0
      && da.highSeverityCount = some 0
      && da.mediumSeverityCount = some 0
      && da.lowSeverityCount = some 0 then
    { da with highSeverityCount := some highSeverityVulns
              mediumSeverityCount := some mediumSeverityVulns
              lowSeverityCount := some lowSeverityVulns
              vulnerablePackages := osvVulnerabilities.map (fun v =>
                { name := v.package
                  severity := v.severity
                  fixedIn := v.fixedIn
                  id := some v.id
                  details := some v.details })
              vulnerabilitySource := some "OSV" }
  else da

/-! ## The analysis stages -/

/-- Source lines 58–75: license name and risk assessment. -/
def licenseAssessment (licenseName : Option String) : String × String :=
  match licenseName with
  | none => ("Unknown", "Medium")
  | some license =>
    let permissiveLicenses := ["MIT", "Apache", "BSD", "ISC", "CC0"]
    let restrictiveLicenses := ["GPL", "AGPL", "LGPL", "MPL"]
    let licenseRisk :=
      if permissiveLicenses.any (fun l => strContains license l) then "Low"
      else if restrictiveLicenses.any (fun l => strContains license l) then "Medium"
      else if strContains license "Proprietary" || license = "UNLICENSED" then "High"
      else "Medium"
    (license, licenseRisk)

/-- Source lines 754–764: the size-based complexity heuristic
(`if (repoInfo.size)` is JS truthiness, i.e. `size ≠ 0`). -/
def complexityOf (size : Int) : String :=
  if size ≠ 0 then
    if size < 500 then "Likely low complexity (based on size)."
    else if size < 5000 then "Potentially moderate complexity (based on size)."
    else "Likely high complexity (based on size)."
  else "Difficult to assess via API."

/-- Source lines 89–101: one iteration of the contributor detail loop,
individually guarded; a failed lookup leaves the accumulators as they
were. -/
def contributorStep (o : Oracle) (now : Int) (acc : Int × Nat)
    (contributor : Contributor) : M (Int × Nat) :=
  M.tryCatch (do
    let userResponse ← doFetch (.userDetail contributor.url) (o.userDetail contributor.url)
    if userResponse.ok then do
      let userData ← jsonOf userResponse
      let userAgeInDays := (now - userData.createdAt).fdiv 86400000
      M.pure (acc.1 + userAgeInDays, acc.2 + 1)
    else M.pure acc) acc

/-- Source lines 83–102: the per-contributor detail loop. -/
def contributorDetailFold (o : Oracle) (now : Int)
    (contributorsToProcess : List Contributor) : M (Int × Nat) :=
  contributorsToProcess.foldlM (contributorStep o now) (0, 0)

/-- Source lines 144–209: the vulnerability-alerts block.  The single JS
`catch` observes all mutations made before the throw, so each throwing
step is caught holding the state reached so far. -/
def vulnAlertStage (o : Oracle) (githubToken : Option String) (da : DepAnalysis) :
    M DepAnalysis :=
  match githubToken with
  | none => M.pure da
  | some _ => do
    let alertsStatus ← M.tryCatch (do
      let alertsResponse ← doFetch .vulnAlerts o.vulnAlerts
      M.pure (some alertsResponse.status)) none
    match alertsStatus with
    | none => M.pure da
    | some status =>
      let da := { da with alertsEnabled := status = 204 }
      if da.alertsEnabled then
        M.tryCatch (do
          let dependabotAlertsResponse ← doFetch .dependabotAlerts o.dependabotAlerts
          if dependabotAlertsResponse.ok then do
            let alerts ← jsonOf dependabotAlertsResponse
            let counts := countSeverities alerts
            M.pure { da with highSeverityCount := some (counts.1 : Int)
                             mediumSeverityCount := some (counts.2.1 : Int)
                             lowSeverityCount := some (counts.2.2 : Int)
                             vulnerablePackages := collectVulnPackages alerts }
          else M.pure da) da
      else M.pure da

/-- Source lines 212–239: parse dependencies from `package.json` when
that fetch succeeded; a decode/parse failure leaves the analysis object
untouched (the `catch` only warns). -/
def packageJsonStage (packageJsonResponse : HRes (ContentsDoc PackageJsonDoc))
    (da : DepAnalysis) : M DepAnalysis :=
  if packageJsonResponse.ok then
    M.tryCatch (do
      let contentResponse ← jsonOf packageJsonResponse
      match contentResponse.content with
      | none => M.pure da
      | some .malformed => M.throw "Unexpected token in JSON"
      | some (.parsed packageJson) =>
        M.pure { da with dependenciesCount := depCountOfPackageJson packageJson
                         parsedDependencies := parsedDepsOfPackageJson packageJson }) da
  else M.pure da

/-- Source lines 242–264: parse `requirements.txt` when present and the
npm manifest produced nothing. -/
def requirementsStage (requirementsResponse : HRes (ContentsDoc String))
    (da : DepAnalysis) : M DepAnalysis :=
  if requirementsResponse.ok && da.parsedDependencies.length = 0 then
    M.tryCatch (do
      let contentResponse ← jsonOf requirementsResponse
      match contentResponse.content with
      | none => M.pure da
      | some .malformed => M.throw "Unexpected token in JSON"
      | some (.parsed content) =>
        let requirements := parseRequirements content
        M.pure { da with dependenciesCount := requirements.length
                         parsedDependencies := requirements.take 20 }) da
  else M.pure da

/-- Source lines 293–333: one OSV query; the per-dependency `catch`
makes any failure contribute the empty list. -/
def osvQueryDep (o : Oracle) (ecosystem : String) (dep : DepEntry) : M (List OsvRecord) :=
  M.tryCatch (do
    let response ← doFetch (.osvQuery ecosystem dep.name dep.version)
      (o.osvQuery dep.name dep.version)
    if response.ok then do
      let data ← jsonOf response
      if data.vulns.length > 0 then
        M.pure (data.vulns.map (fun v => mkOsvRecord dep v))
      else M.pure []
    else M.pure []) []

/-- Source lines 286–341: accumulate the OSV results over the batches in
order. -/
def osvBatchesFold (o : Oracle) (eco : String) (batches : List (List DepEntry)) :
    M (List OsvRecord) :=
  batches.foldlM (fun acc batch =>
    M.bind (mapML (osvQueryDep o eco) batch)
      (fun batchResults => M.pure (acc ++ batchResults.flatten))) []

/-- Source lines 266–373: the OSV lookup over batches of 10, then the
conditional merge `applyOsvMerge`. -/
def osvStage (o : Oracle) (pkgOk reqOk mavenOk : Bool) (da : DepAnalysis) : M DepAnalysis :=
  if da.parsedDependencies.length > 0 then
    M.tryCatch (do
      let ecosystem : Option String :=
        if pkgOk then some "npm"
        else if reqOk then some "PyPI"
        else if mavenOk then some "Maven"
        else none
      match ecosystem with
      | none => M.pure da
      | some eco => do
        let osvVulnerabilities ← osvBatchesFold o eco (chunkList 10 da.parsedDependencies)
        M.pure (applyOsvMerge da osvVulnerabilities)) da
  else M.pure da

/-- Source lines 398–421: the registry "latest version" lookup for one
dependency. -/
def registryLatest (o : Oracle) (ecosystem : String) (dep : DepEntry) : M (Option String) := do
  if ecosystem = "npm" then do
    let npmResponse ← doFetch (.npmLatest dep.name) (o.npmLatest dep.name)
    if npmResponse.ok then do
      let npmData ← jsonOf npmResponse
      M.pure (some npmData.version)
    else M.pure none
  else if ecosystem = "PyPI" then do
    let pypiResponse ← doFetch (.pypiLatest dep.name) (o.pypiLatest dep.name)
    if pypiResponse.ok then do
      let pypiData ← jsonOf pypiResponse
      M.pure (some pypiData.infoVersion)
    else M.pure none
  else M.pure none

/-- Source lines 397–476: one staleness check, guarded per dependency. -/
def outdatedQueryDep (o : Oracle) (ecosystem : String) (dep : DepEntry) :
    M (Option OutdatedRecord) :=
  M.tryCatch (do
    let latestVersion ← registryLatest o ecosystem dep
    match latestVersion with
    | some lv => M.pure (mkOutdatedRecord dep.name dep.version lv)
    | none => M.pure none) none

/-- Source lines 478–488: accumulate the outdated records over the
batches in order, dropping the `null`s (`filter(Boolean)`). -/
def outdatedBatchesFold (o : Oracle) (eco : String) (init : List OutdatedRecord)
    (batches : List (List DepEntry)) : M (List OutdatedRecord) :=
  batches.foldlM (fun acc batch =>
    M.bind (mapML (outdatedQueryDep o eco) batch)
      (fun batchResults => M.pure (acc ++ batchResults.filterMap id))) init

/-- Source lines 375–502: the outdated-dependency stage over batches of
5, then the major/minor bucket counts. -/
def outdatedStage (o : Oracle) (pkgOk reqOk : Bool) (da : DepAnalysis) : M DepAnalysis :=
  if da.parsedDependencies.length > 0 then
    M.tryCatch (do
      let ecosystem : Option String :=
        if pkgOk then some "npm" else if reqOk then some "PyPI" else none
      match ecosystem with
      | none => M.pure da
      | some eco => do
        let outdated ← outdatedBatchesFold o eco da.outdatedDependencies
          (chunkList 5 da.parsedDependencies)
        let da := { da with outdatedDependencies := outdated }
        M.pure { da with majorOutdatedCount := majorOutdatedCountOf da.outdatedDependencies
                         minorOutdatedCount := minorOutdatedCountOf da.outdatedDependencies }) da
  else M.pure da

/-! ### README excerpt (renderer-only)

The excerpt feeds only the markdown report; no scoring decision reads
it.  The paragraph-selection logic is transcribed; the regex-based
badge detection and the final markdown-artifact cleanup are abbreviated
to substring tests (noted inline). -/

/-- Remove `fence`-delimited pairs the way the non-greedy
`replace(/```[\s\S]*?```/g, '')` does: complete pairs vanish, a final
unmatched fence survives. -/
def dropFencedAux (fence : String) : List String → String
  | [] => ""
  | [x] => x
  | [x, y] => x ++ fence ++ y
  | x :: _ :: rest => x ++ dropFencedAux fence rest

def dropFenced (fence : String) (s : String) : String :=
  dropFencedAux fence (jsSplitOn s fence)

def countOccurrences (s pat : String) : Nat := (jsSplitOn s pat).length - 1

/-- Source lines 559–571: should this trimmed paragraph be skipped?
The badge/shield regexes are approximated by substring tests. -/
def excerptSkip (trimmed : String) : Bool :=
  jsStartsWith trimmed "#"
  || trimmed.length ≤ 20
  || jsStartsWith trimmed "-" || jsStartsWith trimmed "*"
  || (strContains trimmed "![" &&
        (strContains trimmed "badge" || strContains trimmed "shield"))
  || strContains trimmed "[!["
  || countOccurrences trimmed "![" > 1
  || (countOccurrences trimmed "![" ≥ 1
        && countOccurrences trimmed "![" * 10 > trimmed.length)

/-- Source lines 596–602, abbreviated: collapse newlines to spaces and
trim (the link/bold/italic unwrapping is omitted — renderer-only). -/
def cleanupMarkdownArtifacts (s : String) : String :=
  jsTrim (String.mk (s.data.map (fun c => if c = '\n' then ' ' else c)))

/-- Source lines 544–604: excerpt extraction from the decoded README. -/
def computeReadmeExcerpt (fullReadme : String) : String :=
  let readmeWithoutCode := dropFenced "`" (dropFenced "~~~" (dropFenced "```" fullReadme))
  let paragraphs := (jsSplitOn readmeWithoutCode "\n\n").map (fun p => jsTrim p)
  let excerpt : String :=
    match paragraphs.filter (fun t => !excerptSkip t) with
    | e :: _ => e
    | [] =>
      match paragraphs.filter (fun t => t.length > 20 && !(jsStartsWith t "#")) with
      | e :: _ => e
      | [] => ""
  let excerpt := if excerpt.length > 500 then excerpt.take 500 ++ "..." else excerpt
  cleanupMarkdownArtifacts excerpt

/-- Source lines 527–609: README presence, URL and excerpt.  The JSON
decode is guarded; `readmeUrl` is assigned before the content check, so
it survives a skipped excerpt. -/
def readmeStage (readmeResponse : HRes (ContentsDoc String)) :
    M (Option String × Option String) :=
  if readmeResponse.ok then
    M.tryCatch (do
      let readmeData ← jsonOf readmeResponse
      let readmeUrl := some readmeData.htmlUrl
      match readmeData.content with
      | some (.parsed fullReadme) =>
        if readmeData.size < 100000 then
          M.pure (some (computeReadmeExcerpt fullReadme), readmeUrl)
        else M.pure (none, readmeUrl)
      | _ => M.pure (none, readmeUrl)) (none, none)
  else M.pure (none, none)

structure ReleaseInfo where
  hasReleases : Bool
  releaseCount : Nat
  latestReleaseDate : Option Int
  daysSinceLastRelease : Option Int
  usesSemanticVersioning : Bool
deriving Repr, DecidableEq

/-- Source line 658: `/^v?\d+\.\d+\.\d+(-.*)?$/` on the latest tag. -/
def semverTagTest (tag : String) : Bool :=
  let cs := tag.data
  let cs := match cs with
    | 'v' :: rest => rest
    | other => other
  let d1 := cs.takeWhile Char.isDigit
  let r1 := cs.drop d1.length
  if d1 = [] then false
  else match r1 with
    | '.' :: r2 =>
      let d2 := r2.takeWhile Char.isDigit
      let r3 := r2.drop d2.length
      if d2 = [] then false
      else match r3 with
        | '.' :: r4 =>
          let d3 := r4.takeWhile Char.isDigit
          let r5 := r4.drop d3.length
          if d3 = [] then false
          else match r5 with
            | [] => true
            | '-' :: _ => true
            | _ => false
        | _ => false
    | _ => false

/-- Source lines 635–661: the releases fetch.  `releases.json()` is only
called when the response is OK; a parse failure there is unguarded and
propagates. -/
def releasesStage (o : Oracle) (now : Int) : M ReleaseInfo := do
  let releasesResponse ← doFetch .releases o.releases
  let base : ReleaseInfo :=
    { hasReleases := false, releaseCount := 0, latestReleaseDate := none
      daysSinceLastRelease := none, usesSemanticVersioning := false }
  if releasesResponse.ok then do
    let releases ← jsonOf releasesResponse
    match releases with
    | [] => M.pure { base with hasReleases := false, releaseCount := 0 }
    | latestRelease :: _ =>
      M.pure { hasReleases := true
               releaseCount := releases.length
               latestReleaseDate := some latestRelease.publishedAt
               daysSinceLastRelease := some ((now - latestRelease.publishedAt).fdiv 86400000)
               usesSemanticVersioning := semverTagTest latestRelease.tagName }
  else M.pure base

/-- Source lines 663–670: last-100-commits recency.  `commits.json()` is
called unconditionally and unguarded. -/
def commitsStage (o : Oracle) (now : Int) : M (Nat × Option Int) := do
  let commitsResponse ← doFetch .commits o.commits
  let commits ← jsonOf commitsResponse
  let numberOfCommits := commits.length
  let lastCommitDate := commits.head?.map (fun c => c.authorDate)
  let daysSinceLastCommit := lastCommitDate.map (fun d => (now - d).fdiv 86400000)
  M.pure (numberOfCommits, daysSinceLastCommit)

/-- Source lines 683–690: open pull requests older than 90 days
(unguarded fetch and decode). -/
def pullsStage (o : Oracle) (now : Int) : M Nat := do
  let pullsResponse ← doFetch .pulls o.pulls
  let openPulls ← jsonOf pullsResponse
  M.pure ((openPulls.filter (fun pull =>
    (now - pull.createdAt).fdiv 86400000 > 90)).length)

/-- Source lines 692–703: open issues (PRs filtered out) and the count
of issues older than 180 days (unguarded fetch and decode). -/
def issuesStage (o : Oracle) (now : Int) : M (List IssueInfo × Nat) := do
  let issuesResponse ← doFetch .issues o.issues
  let openIssues ← jsonOf issuesResponse
  let actualOpenIssues := openIssues.filter (fun issue => !issue.isPullRequest)
  let longLivingIssues := actualOpenIssues.filter (fun issue =>
    (now - issue.createdAt).fdiv 86400000 > 180)
  M.pure (actualOpenIssues, longLivingIssues.length)

/-- Source lines 705–752: best-effort issue response time over up to 10
recently closed non-PR issues (fetches and decodes unguarded). -/
def responseTimeStage (o : Oracle) (actualOpenIssues : List IssueInfo) :
    M (Option (Int × Nat)) := do
  if actualOpenIssues.length > 0 then do
    let closedIssuesResponse ← doFetch .closedIssues o.closedIssues
    if closedIssuesResponse.ok then do
      let closedIssues ← jsonOf closedIssuesResponse
      let issuesWithComments ← (closedIssues.take 10).foldlM (fun acc issue => do
        if !issue.isPullRequest then do
          let commentsResponse ← doFetch (.comments issue.commentsUrl)
            (o.comments issue.commentsUrl)
          if commentsResponse.ok then do
            let comments ← jsonOf commentsResponse
            match comments with
            | [] => M.pure acc
            | first :: _ =>
              M.pure (acc ++ [(first.createdAt - issue.createdAt).fdiv 3600000])
          else M.pure acc
        else M.pure acc) ([] : List Int)
      match issuesWithComments with
      | [] => M.pure none
      | _ =>
        let totalResponseTime := issuesWithComments.foldl (fun a b => a + b) 0
        M.pure (some (totalResponseTime.fdiv issuesWithComments.length,
          issuesWithComments.length))
    else M.pure none
  else M.pure none

/-- Everything the success path carries into scoring and rendering. -/
structure Gathered where
  facts : Facts
  depAnalysis : DepAnalysis
  readmeExcerpt : Option String
  readmeUrl : Option String
  numberOfCommits : Nat
  forkCount : Int
  watcherCount : Int
  openIssuesCount : Int
  createdAt : Int
  updatedAt : Int
deriving Repr, DecidableEq

/-- Source lines 47–764: the fact-gathering pipeline that runs after the
primary fetch succeeded, in source order. -/
def gatherFacts (o : Oracle) (githubToken : Option String) (now : Int)
    (repoInfo : RepoInfo) : M Gathered := do
  let createdAt := repoInfo.createdAt
  let updatedAt := repoInfo.updatedAt
  let ageInDays := (now - createdAt).fdiv 86400000
  let starCount := repoInfo.stargazersCount
  let forkCount := repoInfo.forksCount
  let watcherCount := repoInfo.subscribersCount
  let openIssuesCount := repoInfo.openIssuesCount
  let license := (licenseAssessment repoInfo.license).1
  let licenseRisk := (licenseAssessment repoInfo.license).2
  let contributorsResponse ← doFetch .contributors o.contributors
  let contributors ← jsonOf contributorsResponse
  let numberOfContributors := contributors.length
  let contributorsToProcess := contributors.take 10
  let (totalContributorAge, processedContributors) ←
    contributorDetailFold o now contributorsToProcess
  let averageContributorAgeInDays : Option Int :=
    if processedContributors > 0 then
      some (totalContributorAge.fdiv processedContributors)
    else none
  let packageJsonResponse ← doFetch (.contents "package.json") o.packageJson
  let packageLockResponse ← doFetch (.contents "package-lock.json") o.packageLock
  let requirementsResponse ← doFetch (.contents "requirements.txt") o.requirements
  let gemfileResponse ← doFetch (.contents "Gemfile") o.gemfile
  let gradleResponse ← doFetch (.contents "build.gradle") o.gradle
  let mavenResponse ← doFetch (.contents "pom.xml") o.maven
  let hasDependencyFile := packageJsonResponse.ok || packageLockResponse.ok
    || requirementsResponse.ok || gemfileResponse.ok
    || gradleResponse.ok || mavenResponse.ok
  let da := initDepAnalysis hasDependencyFile
  let da ← vulnAlertStage o githubToken da
  let da ← packageJsonStage packageJsonResponse da
  let da ← requirementsStage requirementsResponse da
  let da ← osvStage o packageJsonResponse.ok requirementsResponse.ok mavenResponse.ok da
  let da ← outdatedStage o packageJsonResponse.ok requirementsResponse.ok da
  let t1 ← doFetch (.contents "tests") (o.contentsProbe "tests")
  let t2 ← doFetch (.contents "test") (o.contentsProbe "test")
  let t3 ← doFetch (.contents "__tests__") (o.contentsProbe "__tests__")
  let t4 ← doFetch (.contents "spec") (o.contentsProbe "spec")
  let hasTestDirectory := probeBatch [t1, t2, t3, t4]
  let c1 ← doFetch (.contents ".github/workflows") (o.contentsProbe ".github/workflows")
  let c2 ← doFetch (.contents ".travis.yml") (o.contentsProbe ".travis.yml")
  let c3 ← doFetch (.contents ".gitlab-ci.yml") (o.contentsProbe ".gitlab-ci.yml")
  let c4 ← doFetch (.contents "azure-pipelines.yml") (o.contentsProbe "azure-pipelines.yml")
  let c5 ← doFetch (.contents "Jenkinsfile") (o.contentsProbe "Jenkinsfile")
  let c6 ← doFetch (.contents ".circleci/config.yml") (o.contentsProbe ".circleci/config.yml")
  let hasCiSetup := probeBatch [c1, c2, c3, c4, c5, c6]
  let readmeResponse ← doFetch (.contents "README.md") o.readme
  let hasReadme := readmeResponse.ok
  let (readmeExcerpt, readmeUrl) ← readmeStage readmeResponse
  let d1 ← doFetch (.contents "docs") (o.contentsProbe "docs")
  let d2 ← doFetch (.contents "documentation") (o.contentsProbe "documentation")
  let d3 ← doFetch (.contents "wiki") (o.contentsProbe "wiki")
  let hasDocDirectory := probeBatch [d1, d2, d3]
  let q1 ← doFetch (.contents ".eslintrc") (o.contentsProbe ".eslintrc")
  let q2 ← doFetch (.contents ".eslintrc.js") (o.contentsProbe ".eslintrc.js")
  let q3 ← doFetch (.contents ".eslintrc.json") (o.contentsProbe ".eslintrc.json")
  let q4 ← doFetch (.contents ".prettierrc") (o.contentsProbe ".prettierrc")
  let q5 ← doFetch (.contents ".prettierrc.js") (o.contentsProbe ".prettierrc.js")
  let q6 ← doFetch (.contents ".prettierrc.json") (o.contentsProbe ".prettierrc.json")
  let q7 ← doFetch (.contents ".stylelintrc") (o.contentsProbe ".stylelintrc")
  let q8 ← doFetch (.contents ".pylintrc") (o.contentsProbe ".pylintrc")
  let q9 ← doFetch (.contents "tslint.json") (o.contentsProbe "tslint.json")
  let q10 ← doFetch (.contents ".rubocop.yml") (o.contentsProbe ".rubocop.yml")
  let hasCodeQualityTools := probeBatch [q1, q2, q3, q4, q5, q6, q7, q8, q9, q10]
  let releaseInfo ← releasesStage o now
  let (numberOfCommits, daysSinceLastCommit) ← commitsStage o now
  let contributingResponse ← doFetch (.contents "CONTRIBUTING.md") o.contributing
  let hasContributingGuidelines := contributingResponse.ok
  let s1 ← doFetch (.contents "SECURITY.md") o.securityMd
  let s2 ← doFetch (.contents "SECURITY.txt") o.securityTxt
  let hasSecurityPolicy := probeBatch [s1, s2]
  let longLivingPullsCount ← pullsStage o now
  let (actualOpenIssues, longLivingIssuesCount) ← issuesStage o now
  let responseTimeMetrics ← responseTimeStage o actualOpenIssues
  let codeComplexity := complexityOf repoInfo.size
  let facts : Facts :=
    { numberOfContributors := numberOfContributors
      averageContributorAgeInDays := averageContributorAgeInDays
      ageInDays := ageInDays
      daysSinceLastCommit := daysSinceLastCommit
      license := license
      licenseRisk := licenseRisk
      hasDependencyFile := hasDependencyFile
      hasTestDirectory := hasTestDirectory
      hasCiSetup := hasCiSetup
      hasReadme := hasReadme
      hasDocDirectory := hasDocDirectory
      hasReleases := releaseInfo.hasReleases
      daysSinceLastRelease := releaseInfo.daysSinceLastRelease
      usesSemanticVersioning := releaseInfo.usesSemanticVersioning
      starCount := starCount
      responseTimeMetrics := responseTimeMetrics
      hasCodeQualityTools := hasCodeQualityTools
      hasContributingGuidelines := hasContributingGuidelines
      longLivingPullsCount := longLivingPullsCount
      longLivingIssuesCount := longLivingIssuesCount
      hasSecurityPolicy := hasSecurityPolicy
      codeComplexity := codeComplexity
      depHighSeverityCount := da.highSeverityCount
      depMediumSeverityCount := da.mediumSeverityCount
      depLowSeverityCount := da.lowSeverityCount
      depHasDependencies := da.hasDependencies
      depAlertsEnabled := da.alertsEnabled
      depMajorOutdatedCount := da.majorOutdatedCount
      depMinorOutdatedCount := da.minorOutdatedCount }
  M.pure { facts := facts
           depAnalysis := da
           readmeExcerpt := readmeExcerpt
           readmeUrl := readmeUrl
           numberOfCommits := numberOfCommits
           forkCount := forkCount
           watcherCount := watcherCount
           openIssuesCount := openIssuesCount
           createdAt := createdAt
           updatedAt := updatedAt }

/-! ## Identity parsing and the top-level entry point -/

/-- Try to match `([^/]+)\/([^/]+)` right after an occurrence of
`github.com/`. -/
def matchOwnerRepo (l : List Char) : Option (String × String) :=
  let g1 := l.takeWhile (fun c => c ≠ '/')
  if g1 = [] then none
  else match l.drop g1.length with
    | '/' :: rest =>
      let g2 := rest.takeWhile (fun c => c ≠ '/')
      if g2 = [] then none else some (String.mk g1, String.mk g2)
    | _ => none

def githubComSlash : List Char := "github.com/".data

/-- Source line 9: `repoUrl.match(/github\.com\/([^/]+)\/([^/]+)/)` —
first position where the whole pattern matches. -/
def parseRepoUrlAux : List Char → Option (String × String)
  | [] => none
  | c :: rest =>
    match (if githubComSlash.isPrefixOf (c :: rest) then
        matchOwnerRepo ((c :: rest).drop githubComSlash.length)
      else none) with
    | some r => some r
    | none => parseRepoUrlAux rest

def parseRepoUrl (repoUrl : String) : Option (String × String) :=
  parseRepoUrlAux repoUrl.data

/-- Source line 17: `parts[2].replace(/\.git$/, '')`. -/
def stripGitSuffix (repo : String) : String :=
  if jsEndsWith repo ".git" then repo.dropRight 4 else repo

/-- The `riskScore` of the returned object: a number on the success path,
the `"N/A"` sentinel on the error paths. -/
inductive ScoreVal where
  | na
  | num (n : Nat)
deriving Repr, DecidableEq

/-- The returned object.  The error paths construct
`{ markdownSummary, riskScore: 'N/A' }` with no `riskRating` property at
all, which is `riskRating := none` here; the success path always sets
one of the three rating strings. -/
structure AnalysisResult where
  markdownSummary : String
  riskScore : ScoreVal
  riskRating : Option String
deriving Repr, DecidableEq

/-- Abbreviated model of the markdown template (source lines 972–1170):
pure templating over the gathered facts; we render the header, the
optional project description and the risk summary, which is all any
claim observes.  Tables and date formatting are omitted. -/
def renderMarkdown (owner repo : String) (g : Gathered) (riskScore : Nat)
    (riskRating : String) (riskFactors : List RiskFactor) : String :=
  "## GitHub Repository Analysis: " ++ owner ++ "/" ++ repo ++ "\n\n"
  ++ (match g.readmeExcerpt with
      | some e => "### Project Description\n" ++ e ++ "\n\n"
      | none => "")
  ++ "### Risk Summary\n\n**Risk Score:** " ++ toString riskScore
  ++ " (" ++ riskRating ++ ")\n\n#### Risk Factors Identified\n"
  ++ (match riskFactors with
      | [] => "None significant found based on available data."
      | _ => String.intercalate "\n" (riskFactors.map (fun factor => "- " ++ factor.message)))

/-- The three ways the `try` body can come back: the two early `return`s
of error objects, or the completed fact gathering. -/
inductive AnalyzeOutcome where
  | invalidUrl
  | fetchErrorResult (status : Nat) (statusText : String)
  | success (owner repo : String) (g : Gathered)

/-- The body of the top-level `try` (source lines 8–1172). -/
def analyzeE (o : Oracle) (githubToken : Option String) (now : Int)
    (repoUrl : String) : M AnalyzeOutcome := do
  match parseRepoUrl repoUrl with
  | none => M.pure .invalidUrl
  | some (owner, repoRaw) =>
    let repo := stripGitSuffix repoRaw
    let repoInfoResponse ← doFetch .repoInfo o.repoInfo
    if !repoInfoResponse.ok then
      M.pure (.fetchErrorResult repoInfoResponse.status repoInfoResponse.statusText)
    else do
      let repoInfo ← jsonOf repoInfoResponse
      let g ← gatherFacts o githubToken now repoInfo
      M.pure (.success owner repo g)

/-- The function `analyzeGitHubRepository`, instrumented with the request log: the
top-level `try`/`catch` (source lines 8 and 1173–1179) turns any escaped
exception into the `Error during analysis` object. -/
def analyzeRun (o : Oracle) (githubToken : Option String) (now : Int)
    (repoUrl : String) : AnalysisResult × List Request :=
  match analyzeE o githubToken now repoUrl ⟨[]⟩ with
  | (.ok .invalidUrl, st) =>
    ({ markdownSummary := "Error: Invalid GitHub repository URL."
       riskScore := .na, riskRating := none }, st.log)
  | (.ok (.fetchErrorResult status statusText), st) =>
    ({ markdownSummary := "Error fetching repository information (status "
         ++ toString status ++ "): " ++ statusText
       riskScore := .na, riskRating := none }, st.log)
  | (.ok (.success owner repo g), st) =>
    let riskScore := riskScoreOf g.facts
    let riskFactors := riskFactorsOf g.facts
    let riskRating := riskRatingOf riskScore
    ({ markdownSummary := renderMarkdown owner repo g riskScore riskRating riskFactors
       riskScore := .num riskScore
       riskRating := some riskRating }, st.log)
  | (.error e, st) =>
    ({ markdownSummary := "Error during analysis: " ++ e
       riskScore := .na, riskRating := none }, st.log)

/-- The exported function: just the returned object. -/
def analyzeGitHubRepository (o : Oracle) (githubToken : Option String) (now : Int)
    (repoUrl : String) : AnalysisResult :=
  (analyzeRun o githubToken now repoUrl).1

/-! ## Concrete environments used as evaluation inputs -/

def res200 (a : α) : FetchOutcome α := .res ⟨200, "OK", .val a⟩

def resUnit200 : FetchOutcome Unit := .res ⟨200, "OK", .val ()⟩

def resUnit404 : FetchOutcome Unit := .res ⟨404, "Not Found", .val ()⟩

/-- A fixed clock: 400 days after the epoch. -/
def goodNow : Int := 400 * 86400000

def goodUrl : String := "https://github.com/owner/repo"

def goodRepoInfo : RepoInfo :=
  { createdAt := 0, updatedAt := 0, stargazersCount := 50, forksCount := 5
    subscribersCount := 5, openIssuesCount := 0, size := 100, license := some "MIT License" }

def goodPackageJson : ContentsDoc PackageJsonDoc :=
  { content := some (.parsed { dependencies := [("express", "^4.17.1")], devDependencies := [] })
    size := 100, htmlUrl := "" }

/-- A healthy repository: every endpoint settles with benign data. -/
def oracleGood : Oracle :=
  { repoInfo := res200 goodRepoInfo
    contributors := res200
      [⟨"user1", "u1"⟩, ⟨"user2", "u2"⟩, ⟨"user3", "u3"⟩, ⟨"user4", "u4"⟩, ⟨"user5", "u5"⟩]
    userDetail := fun _ => res200 ⟨0⟩
    packageJson := res200 goodPackageJson
    packageLock := resUnit404
    requirements := .res ⟨404, "Not Found", .val ⟨none, 0, ""⟩⟩
    gemfile := resUnit404
    gradle := resUnit404
    maven := resUnit404
    vulnAlerts := resUnit404
    dependabotAlerts := res200 []
    osvQuery := fun _ _ => res200 ⟨[]⟩
    npmLatest := fun _ => res200 ⟨"4.17.1"⟩
    pypiLatest := fun _ => res200 ⟨"1.0.0"⟩
    contentsProbe := fun _ => resUnit200
    readme := res200 ⟨some (.parsed
      "# Test Repo\n\nThis is a reasonable test repository used for the verification development.")
      , 50, "https://github.com/owner/repo/blob/main/README.md"⟩
    releases := res200 [⟨goodNow - 10 * 86400000, "v1.0.0"⟩]
    commits := res200 [⟨goodNow⟩]
    contributing := resUnit200
    securityMd := resUnit200
    securityTxt := resUnit404
    pulls := res200 []
    issues := res200 []
    closedIssues := res200 []
    comments := fun _ => res200 [] }

/-- An environment where the primary fetch settles with a 404 and nothing
else is reachable. -/
def oracleEmpty : Oracle :=
  { repoInfo := .res ⟨404, "Not Found", .parseFail⟩
    contributors := .netError "unreachable"
    userDetail := fun _ => .netError "unreachable"
    packageJson := .netError "unreachable"
    packageLock := .netError "unreachable"
    requirements := .netError "unreachable"
    gemfile := .netError "unreachable"
    gradle := .netError "unreachable"
    maven := .netError "unreachable"
    vulnAlerts := .netError "unreachable"
    dependabotAlerts := .netError "unreachable"
    osvQuery := fun _ _ => .netError "unreachable"
    npmLatest := fun _ => .netError "unreachable"
    pypiLatest := fun _ => .netError "unreachable"
    contentsProbe := fun _ => .netError "unreachable"
    readme := .netError "unreachable"
    releases := .netError "unreachable"
    commits := .netError "unreachable"
    contributing := .netError "unreachable"
    securityMd := .netError "unreachable"
    securityTxt := .netError "unreachable"
    pulls := .netError "unreachable"
    issues := .netError "unreachable"
    closedIssues := .netError "unreachable"
    comments := fun _ => .netError "unreachable" }

/-- Facts on which no scoring chain fires. -/
def benignFacts : Facts :=
  { numberOfContributors := 6
    averageContributorAgeInDays := some 400
    ageInDays := 400
    daysSinceLastCommit := some 10
    license := "MIT License"
    licenseRisk := "Low"
    hasDependencyFile := true
    hasTestDirectory := true
    hasCiSetup := true
    hasReadme := true
    hasDocDirectory := true
    hasReleases := true
    daysSinceLastRelease := some 30
    usesSemanticVersioning := true
    starCount := 50
    responseTimeMetrics := some (10, 3)
    hasCodeQualityTools := true
    hasContributingGuidelines := true
    longLivingPullsCount := 0
    longLivingIssuesCount := 0
    hasSecurityPolicy := true
    codeComplexity := "Likely low complexity (based on size)."
    depHighSeverityCount := some 0
    depMediumSeverityCount := some 0
    depLowSeverityCount := some 0
    depHasDependencies := true
    depAlertsEnabled := true
    depMajorOutdatedCount := 0
    depMinorOutdatedCount := 0 }

/-- The `dependencyAnalysis` state of a tokenless run after parsing one
npm dependency: the advisory path never ran, so the severity counts are
still `null`. -/
def tokenlessDa : DepAnalysis :=
  { initDepAnalysis true with
      dependenciesCount := 1
      parsedDependencies := [⟨"express", "4.17.1"⟩] }

/-- The same state as if the advisory path had run and found zero alerts. -/
def zeroCountsDa : DepAnalysis :=
  { tokenlessDa with
      highSeverityCount := some 0
      mediumSeverityCount := some 0
      lowSeverityCount := some 0 }

/-- A HIGH-severity OSV hit for express@4.17.1. -/
def sampleOsvVuln : OsvVuln :=
  { id := "GHSA-sample"
    summary := some "Sample vulnerability"
    severity := [⟨"HIGH"⟩]
    databaseSpecific := none
    affected := [⟨[⟨"SEMVER", [⟨some "4.18.0"⟩]⟩]⟩] }

def sampleOsvRecord : OsvRecord :=
  mkOsvRecord ⟨"express", "4.17.1"⟩ sampleOsvVuln

/-- An environment whose only reachable endpoint is the OSV index, which
reports `sampleOsvVuln` for every query. -/
def oracleOsvHit : Oracle :=
  { oracleEmpty with osvQuery := fun _ _ => res200 ⟨[sampleOsvVuln]⟩ }

/-- Variant of `oracleGood` with a rejected contributors-list fetch (an unguarded
auxiliary call). -/
def oracleContribFail : Oracle :=
  { oracleGood with contributors := .netError "socket hang up" }

/-- Variant of `oracleGood` with every per-contributor detail lookup rejected (a
guarded call). -/
def oracleUserDetailFail : Oracle :=
  { oracleGood with userDetail := fun _ => .netError "socket hang up" }

/-- Variant of `oracleGood` with every OSV query rejected (guarded per dependency). -/
def oracleOsvNetFail : Oracle :=
  { oracleGood with osvQuery := fun _ _ => .netError "socket hang up" }

/-- Variant of `oracleGood` with every npm registry lookup rejected (guarded per
dependency). -/
def oracleNpmFail : Oracle :=
  { oracleGood with npmLatest := fun _ => .netError "socket hang up" }

/-- Variant of `oracleGood` with a README body that fails to decode as JSON (the
decode is guarded). -/
def oracleReadmeParseFail : Oracle :=
  { oracleGood with readme := .res ⟨200, "OK", .parseFail⟩ }

/-- Variant of `oracleGood` with a commits body that fails to decode as JSON
(`commits.json()` is unguarded). -/
def oracleCommitsParseFail : Oracle :=
  { oracleGood with commits := .res ⟨200, "OK", .parseFail⟩ }

/-- Variant of `oracleGood` with a `package.json` whose decoded text is not valid
JSON. -/
def oracleManifestMalformed : Oracle :=
  { oracleGood with packageJson := res200 ⟨some .malformed, 100, ""⟩ }

/-- Variant of `oracleGood` with the `tests` directory probe answering 500. -/
def oracleProbeError : Oracle :=
  { oracleGood with contentsProbe := fun p =>
      if p = "tests" then .res ⟨500, "Internal Server Error", .val ()⟩
      else oracleGood.contentsProbe p }

/-- A manifest declaring 30 dependencies. -/
def thirtyDeps : List (String × String) :=
  (List.range 30).map (fun i => ("pkg" ++ toString i, "1.0." ++ toString i))

def thirtyDepDoc : PackageJsonDoc :=
  { dependencies := thirtyDeps, devDependencies := [] }

/-- Weight contributed by one scoring chain's outcome. -/
def weightOpt : Option RiskFactor → Nat
  | none => 0
  | some rf => rf.weight

/-! ## Shared lemmas about the scoring accumulation -/

theorem foldl_stepAdd (l : List (Option RiskFactor)) (s : Nat) (fs : List RiskFactor) :
    l.foldl stepAdd (s, fs) =
      (s + ((l.filterMap id).map RiskFactor.weight).sum, fs ++ l.filterMap id) := by
  induction l generalizing s fs with
  | nil => simp
  | cons o t ih =>
    cases o with
    | none =>
      rw [List.foldl_cons]
      show List.foldl stepAdd (s, fs) t = _
      rw [ih]
      simp
    | some rf =>
      rw [List.foldl_cons]
      show List.foldl stepAdd (s + rf.weight, fs ++ [rf]) t = _
      rw [ih]
      simp [Nat.add_assoc]

theorem riskFactorsOf_eq (f : Facts) :
    riskFactorsOf f = (firedFactors f).filterMap id := by
  unfold riskFactorsOf scoreState
  rw [foldl_stepAdd]
  simp

theorem riskScoreOf_eq (f : Facts) :
    riskScoreOf f = (((firedFactors f).filterMap id).map RiskFactor.weight).sum := by
  unfold riskScoreOf scoreState
  rw [foldl_stepAdd]
  simp

theorem sum_weightOpt (l : List (Option RiskFactor)) :
    ((l.filterMap id).map RiskFactor.weight).sum = (l.map weightOpt).sum := by
  induction l with
  | nil => simp
  | cons o t ih => cases o <;> simp [weightOpt, ih]

theorem riskScoreOf_eq_ruleSum (f : Facts) :
    riskScoreOf f = ((firedFactors f).map weightOpt).sum := by
  rw [riskScoreOf_eq, sum_weightOpt]

/-! ## Shared lemmas about the analysis monad -/

theorem bind_def (m : M α) (f : α → M β) : (m >>= f) = M.bind m f := rfl

theorem pure_def (a : α) : (pure a : M α) = M.pure a := rfl

theorem bind_eval {m : M α} {f : α → M β} {st st1 : AnalyzerState} {a : α}
    (h : m st = (.ok a, st1)) : M.bind m f st = f a st1 := by
  unfold M.bind
  rw [h]

theorem bind_eval_error {m : M α} {f : α → M β} {st st1 : AnalyzerState} {e : String}
    (h : m st = (.error e, st1)) : M.bind m f st = (.error e, st1) := by
  unfold M.bind
  rw [h]

theorem tryCatch_of_ok {body : M α} {fb a : α} {st st' : AnalyzerState}
    (h : body st = (.ok a, st')) : M.tryCatch body fb st = (.ok a, st') := by
  unfold M.tryCatch
  rw [h]

theorem tryCatch_of_error {body : M α} {fb : α} {st st' : AnalyzerState} {e : String}
    (h : body st = (.error e, st')) : M.tryCatch body fb st = (.ok fb, st') := by
  unfold M.tryCatch
  rw [h]

theorem tryCatch_ok (body : M α) (fb : α) (st : AnalyzerState) :
    ∃ a st', M.tryCatch body fb st = (.ok a, st') := by
  rcases h : body st with ⟨exc, st1⟩
  cases exc with
  | ok a => exact ⟨a, st1, tryCatch_of_ok h⟩
  | error e => exact ⟨fb, st1, tryCatch_of_error h⟩

theorem bind_ok {m : M α} {f : α → M β}
    (hm : ∀ st, ∃ a st', m st = (.ok a, st'))
    (hf : ∀ a st, ∃ b st', f a st = (.ok b, st')) (st : AnalyzerState) :
    ∃ b st', M.bind m f st = (.ok b, st') := by
  obtain ⟨a, st1, ha⟩ := hm st
  obtain ⟨b, st2, hb⟩ := hf a st1
  exact ⟨b, st2, by rw [bind_eval ha]; exact hb⟩

theorem foldlM_ok (f : β → α → M β)
    (hf : ∀ b a st, ∃ v st', f b a st = (.ok v, st')) :
    ∀ (l : List α) (b : β) (st : AnalyzerState), ∃ v st', l.foldlM f b st = (.ok v, st') := by
  intro l
  induction l with
  | nil => intro b st; exact ⟨b, st, rfl⟩
  | cons a t ih =>
    intro b st
    obtain ⟨v, st1, hv⟩ := hf b a st
    obtain ⟨w, st2, hw⟩ := ih v st1
    refine ⟨w, st2, ?_⟩
    show M.bind (f b a) (fun x => t.foldlM f x) st = _
    rw [bind_eval hv]
    exact hw

theorem foldlM_const (f : β → α → M β)
    (hf : ∀ b a st, ∃ st', f b a st = (.ok b, st')) :
    ∀ (l : List α) (b : β) (st : AnalyzerState), ∃ st', l.foldlM f b st = (.ok b, st') := by
  intro l
  induction l with
  | nil => intro b st; exact ⟨st, rfl⟩
  | cons a t ih =>
    intro b st
    obtain ⟨st1, hv⟩ := hf b a st
    obtain ⟨st2, hw⟩ := ih b st1
    refine ⟨st2, ?_⟩
    show M.bind (f b a) (fun x => t.foldlM f x) st = _
    rw [bind_eval hv]
    exact hw

theorem mapML_const (f : α → M β) (c : β)
    (hf : ∀ a st, ∃ st', f a st = (.ok c, st')) :
    ∀ (l : List α) (st : AnalyzerState),
      ∃ st', mapML f l st = (.ok (l.map (fun _ => c)), st') := by
  intro l
  induction l with
  | nil => intro st; exact ⟨st, rfl⟩
  | cons a t ih =>
    intro st
    obtain ⟨st1, ha⟩ := hf a st
    obtain ⟨st2, ht⟩ := ih st1
    refine ⟨st2, ?_⟩
    show M.bind (f a) (fun b => M.bind (mapML f t) (fun bs => M.pure (b :: bs))) st = _
    rw [bind_eval ha, bind_eval ht]
    rfl

theorem flatten_map_nil (l : List α) :
    (l.map (fun _ => ([] : List β))).flatten = [] := by
  induction l with
  | nil => rfl
  | cons a t ih => simp [ih]

theorem filterMap_id_map_none (l : List α) :
    (l.map (fun _ => (none : Option β))).filterMap id = [] := by
  induction l with
  | nil => rfl
  | cons a t ih => simp [ih]

/-! ## Shared lemmas: the guarded stages never raise -/

theorem contributorDetailFold_ok (o : Oracle) (now : Int) (cs : List Contributor)
    (st : AnalyzerState) : ∃ v st', contributorDetailFold o now cs st = (.ok v, st') :=
  foldlM_ok (contributorStep o now) (fun b _ st0 => tryCatch_ok _ b st0) cs (0, 0) st

theorem vulnAlertStage_ok (o : Oracle) (tok : Option String) (da : DepAnalysis)
    (st : AnalyzerState) : ∃ v st', vulnAlertStage o tok da st = (.ok v, st') := by
  cases tok with
  | none => exact ⟨da, st, rfl⟩
  | some t =>
    refine bind_ok (fun st0 => tryCatch_ok _ none st0) ?_ st
    intro a st0
    cases a with
    | none => exact ⟨da, st0, rfl⟩
    | some status =>
      dsimp only
      split
      · exact tryCatch_ok _ _ st0
      · exact ⟨_, st0, rfl⟩

theorem packageJsonStage_ok (resp : HRes (ContentsDoc PackageJsonDoc)) (da : DepAnalysis)
    (st : AnalyzerState) : ∃ v st', packageJsonStage resp da st = (.ok v, st') := by
  unfold packageJsonStage
  by_cases hok : resp.ok = true
  · rw [if_pos hok]
    exact tryCatch_ok _ da st
  · rw [if_neg hok]
    exact ⟨da, st, rfl⟩

theorem requirementsStage_ok (resp : HRes (ContentsDoc String)) (da : DepAnalysis)
    (st : AnalyzerState) : ∃ v st', requirementsStage resp da st = (.ok v, st') := by
  unfold requirementsStage
  by_cases hc : (resp.ok && da.parsedDependencies.length = 0) = true
  · rw [if_pos hc]
    exact tryCatch_ok _ da st
  · rw [if_neg hc]
    exact ⟨da, st, rfl⟩

theorem osvStage_ok (o : Oracle) (pk rq mv : Bool) (da : DepAnalysis)
    (st : AnalyzerState) : ∃ v st', osvStage o pk rq mv da st = (.ok v, st') := by
  unfold osvStage
  by_cases hlen : da.parsedDependencies.length > 0
  · rw [if_pos hlen]
    exact tryCatch_ok _ da st
  · rw [if_neg hlen]
    exact ⟨da, st, rfl⟩

theorem outdatedStage_ok (o : Oracle) (pk rq : Bool) (da : DepAnalysis)
    (st : AnalyzerState) : ∃ v st', outdatedStage o pk rq da st = (.ok v, st') := by
  unfold outdatedStage
  by_cases hlen : da.parsedDependencies.length > 0
  · rw [if_pos hlen]
    exact tryCatch_ok _ da st
  · rw [if_neg hlen]
    exact ⟨da, st, rfl⟩

theorem readmeStage_ok (resp : HRes (ContentsDoc String)) (st : AnalyzerState) :
    ∃ v st', readmeStage resp st = (.ok v, st') := by
  unfold readmeStage
  by_cases hok : resp.ok = true
  · rw [if_pos hok]
    exact tryCatch_ok _ (none, none) st
  · rw [if_neg hok]
    exact ⟨(none, none), st, rfl⟩

/-! ## Shared lemmas: a guarded failure degrades exactly its own fact -/

theorem contributorStep_netError (o : Oracle) (now : Int) (acc : Int × Nat)
    (c : Contributor) (m : String) (h : o.userDetail c.url = .netError m)
    (st : AnalyzerState) :
    contributorStep o now acc c st = (.ok acc, ⟨st.log ++ [Request.userDetail c.url]⟩) := by
  have hfetch : doFetch (Request.userDetail c.url) (o.userDetail c.url) st
      = (.error m, ⟨st.log ++ [Request.userDetail c.url]⟩) := by rw [h]; rfl
  unfold contributorStep
  apply tryCatch_of_error
  simp only [bind_def]
  rw [bind_eval_error hfetch]

theorem contributorDetailFold_allFail (o : Oracle) (now : Int) (cs : List Contributor)
    (h : ∀ u, ∃ m, o.userDetail u = .netError m) (st : AnalyzerState) :
    ∃ st', contributorDetailFold o now cs st = (.ok (0, 0), st') :=
  foldlM_const (contributorStep o now)
    (fun b c st0 => by
      obtain ⟨m, hm⟩ := h c.url
      exact ⟨_, contributorStep_netError o now b c m hm st0⟩) cs (0, 0) st

theorem osvQueryDep_netError (o : Oracle) (eco : String) (dep : DepEntry) (m : String)
    (h : o.osvQuery dep.name dep.version = .netError m) (st : AnalyzerState) :
    osvQueryDep o eco dep st
      = (.ok [], ⟨st.log ++ [Request.osvQuery eco dep.name dep.version]⟩) := by
  have hfetch : doFetch (Request.osvQuery eco dep.name dep.version)
      (o.osvQuery dep.name dep.version) st
      = (.error m, ⟨st.log ++ [Request.osvQuery eco dep.name dep.version]⟩) := by rw [h]; rfl
  unfold osvQueryDep
  apply tryCatch_of_error
  simp only [bind_def]
  rw [bind_eval_error hfetch]

theorem applyOsvMerge_nil (da : DepAnalysis) : applyOsvMerge da [] = da := by
  simp [applyOsvMerge]

theorem osvBatchesFold_allFail (o : Oracle) (eco : String)
    (h : ∀ n v, ∃ m, o.osvQuery n v = .netError m) (batches : List (List DepEntry))
    (st : AnalyzerState) : ∃ st', osvBatchesFold o eco batches st = (.ok [], st') := by
  refine foldlM_const _ ?_ batches [] st
  intro acc batch st0
  obtain ⟨st1, hmap⟩ := mapML_const (osvQueryDep o eco) []
    (fun dep st2 => by
      obtain ⟨m, hm⟩ := h dep.name dep.version
      exact ⟨_, osvQueryDep_netError o eco dep m hm st2⟩) batch st0
  refine ⟨st1, ?_⟩
  rw [bind_eval hmap]
  show M.pure (acc ++ (batch.map (fun _ => ([] : List OsvRecord))).flatten) st1 = _
  rw [flatten_map_nil]
  simp [M.pure]

theorem osvStage_allFail (o : Oracle) (pk rq mv : Bool) (da : DepAnalysis)
    (h : ∀ n v, ∃ m, o.osvQuery n v = .netError m) (st : AnalyzerState) :
    ∃ st', osvStage o pk rq mv da st = (.ok da, st') := by
  unfold osvStage
  by_cases hlen : da.parsedDependencies.length > 0
  · rw [if_pos hlen]
    rcases hec : (if pk then some "npm" else if rq then some "PyPI"
        else if mv then some "Maven" else none : Option String) with _ | eco
    · exact ⟨st, tryCatch_of_ok (by simp only [hec]; rfl)⟩
    · obtain ⟨st1, hfold⟩ := osvBatchesFold_allFail o eco h
        (chunkList 10 da.parsedDependencies) st
      exact ⟨st1, tryCatch_of_ok (by
        simp only [hec, bind_def]
        rw [bind_eval hfold]
        show M.pure (applyOsvMerge da []) st1 = _
        rw [applyOsvMerge_nil]
        rfl)⟩
  · rw [if_neg hlen]
    exact ⟨st, rfl⟩

theorem outdatedQueryDep_netErrorNpm (o : Oracle) (dep : DepEntry) (m : String)
    (h : o.npmLatest dep.name = .netError m) (st : AnalyzerState) :
    outdatedQueryDep o "npm" dep st
      = (.ok none, ⟨st.log ++ [Request.npmLatest dep.name]⟩) := by
  have hfetch : doFetch (Request.npmLatest dep.name) (o.npmLatest dep.name) st
      = (.error m, ⟨st.log ++ [Request.npmLatest dep.name]⟩) := by rw [h]; rfl
  have hreg : registryLatest o "npm" dep st
      = (.error m, ⟨st.log ++ [Request.npmLatest dep.name]⟩) := by
    unfold registryLatest
    rw [if_pos rfl]
    simp only [bind_def]
    rw [bind_eval_error hfetch]
  unfold outdatedQueryDep
  apply tryCatch_of_error
  simp only [bind_def]
  rw [bind_eval_error hreg]

theorem outdatedBatchesFold_allFail (o : Oracle)
    (h : ∀ n, ∃ m, o.npmLatest n = .netError m) (init : List OutdatedRecord)
    (batches : List (List DepEntry)) (st : AnalyzerState) :
    ∃ st', outdatedBatchesFold o "npm" init batches st = (.ok init, st') := by
  refine foldlM_const _ ?_ batches init st
  intro acc batch st0
  obtain ⟨st1, hmap⟩ := mapML_const (outdatedQueryDep o "npm") none
    (fun dep st2 => by
      obtain ⟨m, hm⟩ := h dep.name
      exact ⟨_, outdatedQueryDep_netErrorNpm o dep m hm st2⟩) batch st0
  refine ⟨st1, ?_⟩
  rw [bind_eval hmap]
  show M.pure (acc ++ (batch.map (fun _ => (none : Option OutdatedRecord))).filterMap id)
      st1 = _
  rw [filterMap_id_map_none]
  simp [M.pure]

theorem outdatedStage_npmFail (o : Oracle) (rq : Bool) (da : DepAnalysis)
    (h : ∀ n, ∃ m, o.npmLatest n = .netError m)
    (hlen : da.parsedDependencies.length > 0) (st : AnalyzerState) :
    ∃ st', outdatedStage o true rq da st
      = (.ok { da with majorOutdatedCount := majorOutdatedCountOf da.outdatedDependencies
                       minorOutdatedCount := minorOutdatedCountOf da.outdatedDependencies },
         st') := by
  unfold outdatedStage
  rw [if_pos hlen]
  obtain ⟨st1, hfold⟩ := outdatedBatchesFold_allFail o h da.outdatedDependencies
    (chunkList 5 da.parsedDependencies) st
  refine ⟨st1, tryCatch_of_ok ?_⟩
  simp only [if_true, bind_def]
  rw [bind_eval hfold]
  rfl

theorem readmeStage_parseFail (resp : HRes (ContentsDoc String))
    (h : resp.body = .parseFail) (st : AnalyzerState) :
    readmeStage resp st = (.ok (none, none), st) := by
  unfold readmeStage
  by_cases hok : resp.ok = true
  · rw [if_pos hok]
    apply tryCatch_of_error
    simp only [bind_def]
    rw [bind_eval_error (show jsonOf resp st = (.error "Unexpected token in JSON", st) from by
      simp only [jsonOf, h]
      rfl)]
  · rw [if_neg hok]
    rfl

theorem vulnAlertStage_dependabotFail (o : Oracle) (tok : String) (da : DepAnalysis)
    (r : HRes Unit) (m : String) (hva : o.vulnAlerts = .res r) (h204 : r.status = 204)
    (hda : o.dependabotAlerts = .netError m) (st : AnalyzerState) :
    ∃ st', vulnAlertStage o (some tok) da st
      = (.ok { da with alertsEnabled := true }, st') := by
  have hfetch : doFetch Request.vulnAlerts o.vulnAlerts st
      = (.ok r, ⟨st.log ++ [Request.vulnAlerts]⟩) := by rw [hva]; rfl
  have hinner : M.tryCatch (M.bind (doFetch Request.vulnAlerts o.vulnAlerts)
      (fun alertsResponse => M.pure (some alertsResponse.status))) none st
      = (.ok (some r.status), ⟨st.log ++ [Request.vulnAlerts]⟩) := by
    apply tryCatch_of_ok
    rw [bind_eval hfetch]
    rfl
  have hdfetch : doFetch Request.dependabotAlerts o.dependabotAlerts
      ⟨st.log ++ [Request.vulnAlerts]⟩
      = (.error m, ⟨(st.log ++ [Request.vulnAlerts]) ++ [Request.dependabotAlerts]⟩) := by
    rw [hda]; rfl
  refine ⟨⟨(st.log ++ [Request.vulnAlerts]) ++ [Request.dependabotAlerts]⟩, ?_⟩
  unfold vulnAlertStage
  simp only [bind_def]
  rw [bind_eval hinner]
  dsimp only
  rw [h204]
  rw [if_pos (show ({ da with alertsEnabled := decide ((204 : Nat) = 204) } :
      DepAnalysis).alertsEnabled = true from rfl)]
  apply tryCatch_of_error
  simp only [bind_def]
  rw [bind_eval_error hdfetch]

/-! ## Shared lemmas: an unguarded failure reaches the top-level catch -/

theorem gatherFacts_contributorsNetError (o : Oracle) (tok : Option String) (now : Int)
    (info : RepoInfo) (m : String) (hc : o.contributors = .netError m)
    (st : AnalyzerState) :
    gatherFacts o tok now info st = (.error m, ⟨st.log ++ [Request.contributors]⟩) := by
  have hfetch : doFetch Request.contributors o.contributors st
      = (.error m, ⟨st.log ++ [Request.contributors]⟩) := by rw [hc]; rfl
  unfold gatherFacts
  simp only [bind_def]
  rw [bind_eval_error hfetch]

theorem analyze_catchAll (o : Oracle) (tok : Option String) (now : Int) (url : String)
    (e : String) (st' : AnalyzerState)
    (h : analyzeE o tok now url ⟨[]⟩ = (.error e, st')) :
    analyzeGitHubRepository o tok now url
      = { markdownSummary := "Error during analysis: " ++ e
          riskScore := .na, riskRating := none } := by
  unfold analyzeGitHubRepository analyzeRun
  rw [h]

theorem analyze_contributorsNetError (o : Oracle) (tok : Option String) (now : Int)
    (url ow rp : String) (r : HRes RepoInfo) (info : RepoInfo) (m : String)
    (hp : parseRepoUrl url = some (ow, rp)) (hres : o.repoInfo = .res r)
    (hok : r.ok = true) (hbody : r.body = .val info)
    (hc : o.contributors = .netError m) :
    analyzeGitHubRepository o tok now url
      = { markdownSummary := "Error during analysis: " ++ m
          riskScore := .na, riskRating := none } := by
  have hfetch : doFetch Request.repoInfo o.repoInfo (⟨[]⟩ : AnalyzerState)
      = (.ok r, ⟨[Request.repoInfo]⟩) := by rw [hres]; rfl
  apply analyze_catchAll o tok now url m ⟨[Request.repoInfo, Request.contributors]⟩
  unfold analyzeE
  simp only [hp, bind_def]
  rw [bind_eval hfetch, hok]
  simp only [Bool.not_true, if_neg (by simp : ¬ (false = true)), bind_def]
  rw [bind_eval (show jsonOf r ⟨[Request.repoInfo]⟩
      = (.ok info, ⟨[Request.repoInfo]⟩) from by
    simp only [jsonOf, hbody]
    rfl)]
  rw [bind_eval_error (gatherFacts_contributorsNetError o tok now info m hc _)]
  rfl

/-! ## Claims -/

/-- C1: the total score equals the sum of the weights of exactly the
risk factors in the returned list; each applicable condition appends
exactly one factor with its fixed weight, so un-triggering one condition
(all other chains unchanged) removes exactly that factor from the list
and exactly its weight from the total. -/
theorem claim_C1_score_is_factor_weight_sum :
    (∀ f : Facts, riskScoreOf f = ((riskFactorsOf f).map RiskFactor.weight).sum) ∧
    (∀ (f f' : Facts) (pre post : List (Option RiskFactor)) (x : RiskFactor),
      firedFactors f = pre ++ some x :: post →
      firedFactors f' = pre ++ none :: post →
      riskScoreOf f = riskScoreOf f' + x.weight ∧
      riskFactorsOf f = pre.filterMap id ++ x :: post.filterMap id ∧
      riskFactorsOf f' = pre.filterMap id ++ post.filterMap id) := by
  constructor
  · intro f
    rw [riskScoreOf_eq, riskFactorsOf_eq]
  · intro f f' pre post x hf hf'
    rw [riskScoreOf_eq, riskScoreOf_eq, riskFactorsOf_eq, riskFactorsOf_eq, hf, hf']
    refine ⟨?_, by simp, by simp⟩
    simp [List.filterMap_append, List.sum_append]
    omega

/-- Witness for C1: two concrete fact collections differing only in the
security-policy condition; removing the trigger removes the weight 2. -/
theorem claim_C1_witness :
    riskScoreOf { benignFacts with hasSecurityPolicy := false } = riskScoreOf benignFacts + 2 :=
  (claim_C1_score_is_factor_weight_sum.2
    { benignFacts with hasSecurityPolicy := false } benignFacts
    (List.replicate 17 none) (List.replicate 7 none)
    ⟨2, "No explicit security policy found."⟩ (by decide) (by decide)).1

/-- C2 (counterexample): the claim states score = 15 gives `Low`, but the
code's `score > 10` branch yields `Medium` at 15. -/
theorem claim_C2_counterexample :
    riskRatingOf 15 = "Medium" ∧ riskRatingOf 15 ≠ "Low" := by decide

/-- C2 (amended): the rating is a function of the total score alone;
`High` exactly above 15, `Medium` exactly on 11–15, `Low` exactly up to
10; boundaries: 15 → Medium (not Low), 16 → High, 10 → Low,
11 → Medium. -/
theorem claim_C2_rating_thresholds :
    (∀ s : Nat, (riskRatingOf s = "High" ↔ s > 15)
       ∧ (riskRatingOf s = "Medium" ↔ (s > 10 ∧ s ≤ 15))
       ∧ (riskRatingOf s = "Low" ↔ s ≤ 10)) ∧
    riskRatingOf 15 = "Medium" ∧ riskRatingOf 16 = "High" ∧
    riskRatingOf 10 = "Low" ∧ riskRatingOf 11 = "Medium" := by
  refine ⟨fun s => ?_, by decide, by decide, by decide, by decide⟩
  by_cases h1 : s > 15
  · simp only [riskRatingOf, if_pos h1]
    exact ⟨by simp [h1], by simp; omega, by simp; omega⟩
  · by_cases h2 : s > 10
    · simp only [riskRatingOf, if_neg h1, if_pos h2]
      exact ⟨by simp; omega, by simp; omega, by simp; omega⟩
    · simp only [riskRatingOf, if_neg h1, if_neg h2]
      exact ⟨by simp; omega, by simp; omega, by simp; omega⟩

/-- C5 (counterexample): four high-severity vulnerability records
contribute a flat +3 to the score, not +12: the vulnerability weights
are applied once per severity class, not per record. -/
theorem claim_C5_counterexample :
    riskScoreOf { benignFacts with depHighSeverityCount := some 4 } = 3 ∧ (3 : Nat) ≠ 12 := by
  decide

/-- C5 (amended): the vulnerability contribution is +3 when at least one
high-severity record was counted, +2 for at least one medium, +1 for at
least one low — independent of how many records there are. -/
theorem claim_C5_severity_weights :
    ∀ (f : Facts) (h m l : Int),
      riskScoreOf { f with depHighSeverityCount := some h, depMediumSeverityCount := some m,
                           depLowSeverityCount := some l }
        = riskScoreOf { f with depHighSeverityCount := some 0, depMediumSeverityCount := some 0,
                               depLowSeverityCount := some 0 }
          + ((if 0 < h then 3 else 0) + (if 0 < m then 2 else 0) + (if 0 < l then 1 else 0)) := by
  intro f h m l
  rw [riskScoreOf_eq_ruleSum, riskScoreOf_eq_ruleSum]
  simp only [firedFactors, ruleList, List.map_cons, List.map_nil, List.sum_cons, List.sum_nil]
  simp only [ruleContributors, ruleContributorAge, ruleProjectAge, ruleLastCommit, ruleLicense,
    ruleDependencyFile, ruleTests, ruleCi, ruleReadme, ruleDocs, ruleReleases, ruleStars,
    ruleResponseTime, ruleCodeQuality, ruleContributing, rulePulls, ruleIssues,
    ruleSecurityPolicy, ruleComplexity, ruleVulnHigh, ruleVulnMedium, ruleVulnLow, ruleAlerts,
    ruleMajorOutdated, ruleMinorOutdated, optGt]
  rcases lt_or_le 0 h with hh | hh <;> rcases lt_or_le 0 m with hm | hm <;>
    rcases lt_or_le 0 l with hl | hl <;>
    simp [hh, hm, hl, weightOpt, not_lt_of_le, Nat.add_assoc] <;> omega

/-- C8: an outdated record is classified major exactly when the coerced
latest major exceeds the coerced current major (independent of
minor/patch deltas); whenever that is so (and both version strings are
truthy) a record is produced with urgency `high`; the three behind-flags
are pairwise exclusive, and the major/minor bucket counts carried into
scoring count disjoint sets of records. -/
theorem claim_C8_major_dominance :
    (∀ (name curRaw latestRaw : String) (cur latest : SemverTriple) (rec : OutdatedRecord),
      coerceVersion (cleanVersionString curRaw) = some cur →
      coerceVersion (cleanVersionString latestRaw) = some latest →
      mkOutdatedRecord name curRaw latestRaw = some rec →
      (rec.isMajorBehind = true ↔ latest.major > cur.major)
      ∧ (rec.isMajorBehind = true → rec.updateUrgency = "high")
      ∧ ¬(rec.isMajorBehind = true ∧ rec.isMinorBehind = true)
      ∧ ¬(rec.isMajorBehind = true ∧ rec.isPatchBehind = true)
      ∧ ¬(rec.isMinorBehind = true ∧ rec.isPatchBehind = true)) ∧
    (∀ (name curRaw latestRaw : String) (cur latest : SemverTriple),
      coerceVersion (cleanVersionString curRaw) = some cur →
      coerceVersion (cleanVersionString latestRaw) = some latest →
      curRaw ≠ "" → latestRaw ≠ "" → latest.major > cur.major →
      ∃ rec, mkOutdatedRecord name curRaw latestRaw = some rec
        ∧ rec.isMajorBehind = true ∧ rec.updateUrgency = "high") ∧
    (∀ l : List OutdatedRecord,
      majorOutdatedCountOf l + minorOutdatedCountOf l
        = (l.filter (fun d => d.isMajorBehind || (!d.isMajorBehind && d.isMinorBehind))).length) := by
  refine ⟨?_, ?_, ?_⟩
  · intro name curRaw latestRaw cur latest rec hc hl hrec
    simp only [mkOutdatedRecord, hc, hl] at hrec
    by_cases hne : (latestRaw ≠ "" && curRaw ≠ "") = true
    · rw [if_pos hne] at hrec
      by_cases hbehind : (decide (latest.major > cur.major)
          || (latest.major = cur.major && latest.minor > cur.minor)
          || (latest.major = cur.major && latest.minor = cur.minor
                && latest.patch > cur.patch)) = true
      · rw [if_pos hbehind] at hrec
        obtain rfl : _ = rec := Option.some.inj hrec
        refine ⟨by simp, ?_, ?_, ?_, ?_⟩ <;> simp +contextual <;> omega
      · rw [if_neg hbehind] at hrec
        exact absurd hrec (by simp)
    · rw [if_neg hne] at hrec
      exact absurd hrec (by simp)
  · intro name curRaw latestRaw cur latest hc hl hcur hlat hmaj
    simp [mkOutdatedRecord, hc, hl, hcur, hlat, hmaj]
  · intro l
    induction l with
    | nil => simp [majorOutdatedCountOf, minorOutdatedCountOf]
    | cons d t ih =>
      simp only [majorOutdatedCountOf, minorOutdatedCountOf] at ih ⊢
      cases hM : d.isMajorBehind <;> cases hm : d.isMinorBehind <;>
        simp [List.filter_cons, hM, hm] <;> omega

/-- Witness for C8 at lodash 3.10.1 → 4.17.21: the produced record is
major-behind with urgency `high` even though the minor/patch components
also differ. -/
theorem claim_C8_witness :
    ((mkOutdatedRecord "lodash" "3.10.1" "4.17.21").map
        (fun rec => rec.isMajorBehind)).getD false = true := by
  obtain ⟨rec, hrec, hmaj, _⟩ := claim_C8_major_dominance.2.1 "lodash" "3.10.1" "4.17.21"
    ⟨3, 10, 1⟩ ⟨4, 17, 21⟩ (by decide) (by decide) (by decide) (by decide) (by decide)
  rw [hrec]
  simpa using hmaj

/-- C7: dependency parsing caps the descriptor list at the first 20
merged entries in stable file order (a 30-dependency manifest yields
exactly 20); the requirements parser is capped the same way; a decode or
JSON-parse failure leaves the dependency list untouched (empty), and a
malformed manifest does not abort the overall analysis (the run still
completes with a numeric score). -/
theorem claim_C7_dependency_cap :
    (∀ doc : PackageJsonDoc,
      (parsedDepsOfPackageJson doc).length = min (depCountOfPackageJson doc) 20
      ∧ (∃ rest, (jsObjectMerge doc.dependencies doc.devDependencies).map
            (fun p => (⟨p.1, cleanVersionString p.2⟩ : DepEntry))
          = parsedDepsOfPackageJson doc ++ rest)
      ∧ (depCountOfPackageJson doc = 30 → (parsedDepsOfPackageJson doc).length = 20)) ∧
    (∀ content : String, (parseRequirements content).take 20
        = ((jsSplitOn content "\n").filterMap parseRequirementLine).take 20) ∧
    (∀ (resp : HRes (ContentsDoc PackageJsonDoc)) (da : DepAnalysis) (st : AnalyzerState),
      (resp.body = .parseFail
        ∨ (∃ d, resp.body = .val d ∧ d.content = some .malformed)
        ∨ (∃ d, resp.body = .val d ∧ d.content = none)) →
      packageJsonStage resp da st = (.ok da, st)) ∧
    (analyzeGitHubRepository oracleManifestMalformed none goodNow goodUrl).riskScore
      = ScoreVal.num 1 := by
  refine ⟨?_, ?_, ?_, by decide⟩
  · intro doc
    refine ⟨?_, ⟨_, (List.take_append_drop 20 _).symm⟩, ?_⟩
    · simp [parsedDepsOfPackageJson, depCountOfPackageJson, Nat.min_comm]
    · intro h30
      simp [parsedDepsOfPackageJson]
      have : (jsObjectMerge doc.dependencies doc.devDependencies).length = 30 := h30
      omega
  · intro content
    rfl
  · intro resp da st hbad
    unfold packageJsonStage
    by_cases hok : resp.ok = true
    · rw [if_pos hok]
      rcases hbad with hb | ⟨d, hb, hc⟩ | ⟨d, hb, hc⟩
      · simp [M.tryCatch, Bind.bind, M.bind, jsonOf, hb, M.throw, M.pure]
      · simp [M.tryCatch, Bind.bind, M.bind, jsonOf, hb, hc, M.throw, M.pure]
      · simp [M.tryCatch, Bind.bind, M.bind, jsonOf, hb, hc, M.throw, M.pure]
    · rw [if_neg hok]
      rfl

/-- Witness for C7: a manifest declaring 30 dependencies parses to
exactly 20 descriptors. -/
theorem claim_C7_witness :
    (parsedDepsOfPackageJson thirtyDepDoc).length = 20 :=
  (claim_C7_dependency_cap.1 thirtyDepDoc).2.2 (by decide)

/-- C9: an existence flag is true iff at least one candidate probe
settled 2xx; an error response (non-2xx, non-404) behaves exactly like a
404 for its candidate; and a 500 on one candidate neither aborts the
batch nor the run (the analysis still completes, with the flag taken
from the remaining candidates). -/
theorem claim_C9_existence_probes :
    (∀ rs : List (HRes Unit), probeBatch rs = true ↔ ∃ r ∈ rs, r.ok = true) ∧
    (∀ (pre post : List (HRes Unit)) (e a : HRes Unit),
      ¬(200 ≤ e.status ∧ e.status < 300) → a.status = 404 →
      probeBatch (pre ++ e :: post) = probeBatch (pre ++ a :: post)) ∧
    (analyzeGitHubRepository oracleProbeError none goodNow goodUrl).riskScore
      = ScoreVal.num 1 := by
  refine ⟨?_, ?_, by decide⟩
  · intro rs
    simp [probeBatch, List.any_eq_true]
  · intro pre post e a he ha
    have he' : e.ok = false := by
      simp [HRes.ok]
      omega
    have ha' : a.ok = false := by
      simp [HRes.ok, ha]
    simp [probeBatch, List.any_append, he', ha']

/-- Witness for C9: a 500 candidate and a 404 candidate yield the same
flag; a batch with one 2xx candidate resolves to true. -/
theorem claim_C9_witness :
    probeBatch [⟨500, "Internal Server Error", .val ()⟩, ⟨404, "Not Found", .val ()⟩]
      = probeBatch [⟨404, "Not Found", .val ()⟩, ⟨404, "Not Found", .val ()⟩]
    ∧ probeBatch [⟨500, "Internal Server Error", .val ()⟩, ⟨200, "OK", .val ()⟩] = true :=
  ⟨claim_C9_existence_probes.2.1 [] [⟨404, "Not Found", .val ()⟩]
      ⟨500, "Internal Server Error", .val ()⟩ ⟨404, "Not Found", .val ()⟩
      (by decide) (by decide),
   (claim_C9_existence_probes.1 _).mpr ⟨⟨200, "OK", .val ()⟩, by decide, by decide⟩⟩

/-- C4: the code discards the OSV results whenever the advisory path did
not run: the merge requires the severity counts to be strictly equal to
0, but a tokenless run leaves them `null`.  At the failing input (one
parsed npm dependency, no token, OSV reporting one HIGH vulnerability)
the OSV query is issued but the result record, counts and source are all
dropped; had the advisory path run and found zero alerts, the same OSV
result would be merged — contradicting the code's own comment ("don't
already have GHAS data"). -/
theorem claim_C4_osv_merge_dropped :
    applyOsvMerge tokenlessDa [sampleOsvRecord] = tokenlessDa
    ∧ tokenlessDa.highSeverityCount = none
    ∧ tokenlessDa.vulnerablePackages = []
    ∧ osvStage oracleOsvHit true false false tokenlessDa ⟨[]⟩
        = (.ok tokenlessDa, ⟨[Request.osvQuery "npm" "express" "4.17.1"]⟩)
    ∧ (applyOsvMerge zeroCountsDa [sampleOsvRecord]).vulnerabilitySource = some "OSV"
    ∧ (applyOsvMerge zeroCountsDa [sampleOsvRecord]).highSeverityCount = some 1 :=
  ⟨by decide, rfl, rfl, rfl, by decide, by decide⟩

/-- C3 (counterexample): on the error-return paths the returned object
carries no rating field at all (`none`), not the rating "N/A" the claim
states. -/
theorem claim_C3_counterexample :
    (analyzeGitHubRepository oracleEmpty none 0 "not-a-github-url").riskScore = ScoreVal.na
    ∧ (analyzeGitHubRepository oracleEmpty none 0 "not-a-github-url").riskRating = none
    ∧ (none : Option String) ≠ some "N/A" := by decide

/-- C3 (amended): an unparsable repository identity, or a settled
non-2xx primary response, returns immediately with the "N/A" score
sentinel, no rating field (rather than rating "N/A"), the one-line error
markdown, and no auxiliary request issued: the request log is empty,
respectively contains only the primary request. -/
theorem claim_C3_error_short_circuit :
    (∀ (o : Oracle) (tok : Option String) (now : Int) (url : String),
      parseRepoUrl url = none →
      analyzeRun o tok now url =
        ({ markdownSummary := "Error: Invalid GitHub repository URL."
           riskScore := .na, riskRating := none }, [])) ∧
    (∀ (o : Oracle) (tok : Option String) (now : Int) (url : String)
        (ow rp : String) (r : HRes RepoInfo),
      parseRepoUrl url = some (ow, rp) →
      o.repoInfo = .res r →
      r.ok = false →
      analyzeRun o tok now url =
        ({ markdownSummary := "Error fetching repository information (status "
             ++ toString r.status ++ "): " ++ r.statusText
           riskScore := .na, riskRating := none }, [Request.repoInfo])) := by
  constructor
  · intro o tok now url hp
    simp [analyzeRun, analyzeE, hp, M.pure]
  · intro o tok now url ow rp r hp hres hok
    simp [analyzeRun, analyzeE, hp, hres, hok, doFetch, Bind.bind, M.bind, M.pure]

/-- Witness for C3: a 404 primary response under a concrete environment
produces exactly the one-line error object and a single-request log. -/
theorem claim_C3_witness :
    analyzeRun oracleEmpty none 0 "https://github.com/owner/repo"
      = ({ markdownSummary := "Error fetching repository information (status 404): Not Found"
           riskScore := .na, riskRating := none }, [Request.repoInfo]) :=
  claim_C3_error_short_circuit.2 oracleEmpty none 0 "https://github.com/owner/repo"
    "owner" "repo" ⟨404, "Not Found", .parseFail⟩ (by decide) rfl (by decide)

/-- C6 (counterexample): the primary fetch succeeds, yet a network
failure on the contributors call — an auxiliary call — does not degrade
one fact: it falls through to the top-level handler, and the run returns
the "N/A" error object instead of a completed result. -/
theorem claim_C6_counterexample :
    oracleContribFail.repoInfo = res200 goodRepoInfo
    ∧ (analyzeGitHubRepository oracleContribFail none goodNow goodUrl).riskScore = ScoreVal.na
    ∧ (analyzeGitHubRepository oracleContribFail none goodNow goodUrl).riskRating = none := by
  refine ⟨rfl, by decide, by decide⟩

set_option maxRecDepth 16384 in
/-- C6 (amended): after the primary fetch succeeds, only failures inside
the individually guarded steps degrade a fact, and they degrade exactly
the fact that step computes — universally over environments and states:
a rejected contributors-list fetch (an unguarded auxiliary call)
propagates to the top-level catch and yields the "N/A" error object
instead of a completed result, and in general every exception escaping
the try body yields exactly that object (the function never throws);
each guarded stage returns normally on every input; rejected
per-contributor lookups leave the age accumulators at zero (average
becomes null), rejected OSV queries leave the dependency analysis
unchanged, rejected npm registry lookups leave the outdated records as
already gathered, a failed README decode yields no excerpt and no URL,
and a rejected Dependabot fetch sets only the alertsEnabled flag; end to
end, runs with such guarded failures return the very same result as the
clean run (resp. the same numeric score), while unguarded failures
return the "N/A" object. -/
theorem claim_C6_degradation_boundaries :
    (∀ (o : Oracle) (tok : Option String) (now : Int) (url ow rp : String)
        (r : HRes RepoInfo) (info : RepoInfo) (m : String),
      parseRepoUrl url = some (ow, rp) →
      o.repoInfo = .res r → r.ok = true → r.body = .val info →
      o.contributors = .netError m →
      analyzeGitHubRepository o tok now url
        = { markdownSummary := "Error during analysis: " ++ m
            riskScore := .na, riskRating := none }) ∧
    (∀ (o : Oracle) (tok : Option String) (now : Int) (url : String) (e : String)
        (st' : AnalyzerState),
      analyzeE o tok now url ⟨[]⟩ = (.error e, st') →
      analyzeGitHubRepository o tok now url
        = { markdownSummary := "Error during analysis: " ++ e
            riskScore := .na, riskRating := none }) ∧
    (∀ (o : Oracle) (now : Int) (cs : List Contributor) (st : AnalyzerState),
      ∃ v st', contributorDetailFold o now cs st = (.ok v, st')) ∧
    (∀ (o : Oracle) (tok : Option String) (da : DepAnalysis) (st : AnalyzerState),
      ∃ v st', vulnAlertStage o tok da st = (.ok v, st')) ∧
    (∀ (resp : HRes (ContentsDoc PackageJsonDoc)) (da : DepAnalysis) (st : AnalyzerState),
      ∃ v st', packageJsonStage resp da st = (.ok v, st')) ∧
    (∀ (resp : HRes (ContentsDoc String)) (da : DepAnalysis) (st : AnalyzerState),
      ∃ v st', requirementsStage resp da st = (.ok v, st')) ∧
    (∀ (o : Oracle) (pk rq mv : Bool) (da : DepAnalysis) (st : AnalyzerState),
      ∃ v st', osvStage o pk rq mv da st = (.ok v, st')) ∧
    (∀ (o : Oracle) (pk rq : Bool) (da : DepAnalysis) (st : AnalyzerState),
      ∃ v st', outdatedStage o pk rq da st = (.ok v, st')) ∧
    (∀ (resp : HRes (ContentsDoc String)) (st : AnalyzerState),
      ∃ v st', readmeStage resp st = (.ok v, st')) ∧
    (∀ (o : Oracle) (now : Int) (cs : List Contributor),
      (∀ u, ∃ m, o.userDetail u = .netError m) →
      ∀ st, ∃ st', contributorDetailFold o now cs st = (.ok (0, 0), st')) ∧
    (∀ (o : Oracle) (pk rq mv : Bool) (da : DepAnalysis),
      (∀ n v, ∃ m, o.osvQuery n v = .netError m) →
      ∀ st, ∃ st', osvStage o pk rq mv da st = (.ok da, st')) ∧
    (∀ (o : Oracle) (rq : Bool) (da : DepAnalysis),
      (∀ n, ∃ m, o.npmLatest n = .netError m) →
      da.parsedDependencies.length > 0 →
      ∀ st, ∃ st', outdatedStage o true rq da st
        = (.ok { da with
                   majorOutdatedCount := majorOutdatedCountOf da.outdatedDependencies
                   minorOutdatedCount := minorOutdatedCountOf da.outdatedDependencies },
           st')) ∧
    (∀ (resp : HRes (ContentsDoc String)) (st : AnalyzerState),
      resp.body = .parseFail → readmeStage resp st = (.ok (none, none), st)) ∧
    (∀ (o : Oracle) (tok : String) (da : DepAnalysis) (r : HRes Unit) (m : String),
      o.vulnAlerts = .res r → r.status = 204 → o.dependabotAlerts = .netError m →
      ∀ st, ∃ st', vulnAlertStage o (some tok) da st
        = (.ok { da with alertsEnabled := true }, st')) ∧
    analyzeGitHubRepository oracleUserDetailFail none goodNow goodUrl
      = analyzeGitHubRepository oracleGood none goodNow goodUrl ∧
    analyzeGitHubRepository oracleOsvNetFail none goodNow goodUrl
      = analyzeGitHubRepository oracleGood none goodNow goodUrl ∧
    analyzeGitHubRepository oracleNpmFail none goodNow goodUrl
      = analyzeGitHubRepository oracleGood none goodNow goodUrl ∧
    (analyzeGitHubRepository oracleGood none goodNow goodUrl).riskScore = ScoreVal.num 1 ∧
    (analyzeGitHubRepository oracleReadmeParseFail none goodNow goodUrl).riskScore
      = ScoreVal.num 1 ∧
    (analyzeGitHubRepository oracleCommitsParseFail none goodNow goodUrl).riskScore
      = ScoreVal.na :=
  ⟨analyze_contributorsNetError,
   analyze_catchAll,
   contributorDetailFold_ok,
   vulnAlertStage_ok,
   packageJsonStage_ok,
   requirementsStage_ok,
   osvStage_ok,
   outdatedStage_ok,
   readmeStage_ok,
   contributorDetailFold_allFail,
   osvStage_allFail,
   outdatedStage_npmFail,
   fun resp st h => readmeStage_parseFail resp h st,
   vulnAlertStage_dependabotFail,
   by decide, by decide, by decide, by decide, by decide, by decide⟩

/-- Witness for C6: a concrete environment exercising the hypotheses —
after a 200 primary fetch, a rejected contributors fetch produces
exactly the catch-all error object. -/
theorem claim_C6_witness :
    analyzeGitHubRepository oracleContribFail none goodNow goodUrl
      = { markdownSummary := "Error during analysis: socket hang up"
          riskScore := .na, riskRating := none } :=
  claim_C6_degradation_boundaries.1 oracleContribFail none goodNow goodUrl
    "owner" "repo" ⟨200, "OK", .val goodRepoInfo⟩ goodRepoInfo "socket hang up"
    (by decide) rfl (by decide) rfl rfl

/-- C10: for every input string and network behaviour the function
returns an object (it never throws): either the error shape — score
"N/A" and no riskRating field — or the success shape — a numeric score
with a rating among Low, Medium, High. -/
theorem claim_C10_total_result_shape (o : Oracle) (tok : Option String) (now : Int)
    (url : String) :
    ((analyzeGitHubRepository o tok now url).riskScore = ScoreVal.na
      ∧ (analyzeGitHubRepository o tok now url).riskRating = none)
    ∨ (∃ n, (analyzeGitHubRepository o tok now url).riskScore = ScoreVal.num n
        ∧ ((analyzeGitHubRepository o tok now url).riskRating = some "Low"
          ∨ (analyzeGitHubRepository o tok now url).riskRating = some "Medium"
          ∨ (analyzeGitHubRepository o tok now url).riskRating = some "High")) := by
  unfold analyzeGitHubRepository analyzeRun
  rcases h : analyzeE o tok now url ⟨[]⟩ with ⟨exc, st⟩
  cases exc with
  | error e => simp
  | ok a =>
    cases a with
    | invalidUrl => simp
    | fetchErrorResult status statusText => simp
    | success owner repo g =>
      right
      refine ⟨riskScoreOf g.facts, by simp, ?_⟩
      by_cases h1 : riskScoreOf g.facts > 15
      · simp [riskRatingOf, h1]
      · by_cases h2 : riskScoreOf g.facts > 10
        · simp [riskRatingOf, h1, h2]
        · simp [riskRatingOf, h1, h2]

end GitAssure
